import Mathlib

set_option linter.unusedVariables false

/-!
Verification of the TACS thermally-coupled shell element
(`src/elements/shell/TACSThermalShellElement.h`) and the aggregated
average-temperature function (`src/functions/TACSAverageTemperature.cpp`).

Scalars are modelled as rationals.  Arrays are modelled as total functions
`ℕ → ℚ`; a C routine that reads a pointer `&a[k]` receives the shifted
function `shiftV a k`, and a routine that accumulates into a caller buffer is
modelled as a pure function returning the increment, which the caller adds.
The element is a C++ template over four policy classes (quadrature, basis,
director, strain model) plus two injected collaborators (constitutive law,
transform); none of their code is under `src/`, so they are gathered in a
structure of operations, `ShellPolicies`, and concrete policy values are
modelled from the spec where a claim needs their semantics.
-/

/-- Arrays of scalars are total maps from indices to rationals. -/
abbrev Vec : Type := ℕ → ℚ

/-- The all-zero array. -/
def zeroV : Vec := fun _ => 0

/-- Pointwise sum of two arrays (accumulation `a[i] += b[i]`). -/
def addV (a b : Vec) : Vec := fun i => a i + b i

/-- Accumulation through an offset pointer: `(&a[off])[i] += b[i]`. -/
def addShiftV (a : Vec) (off : ℕ) (b : Vec) : Vec :=
  fun i => if off ≤ i then a i + b (i - off) else a i

/-- Reading through an offset pointer: `shiftV a k i = a[k + i]`. -/
def shiftV (a : Vec) (k : ℕ) : Vec := fun i => a (k + i)

/-- Sum of a scalar-valued map over a list of indices. -/
def sumQ (l : List ℕ) (f : ℕ → ℚ) : ℚ := (l.map f).sum

/-- Entrywise sum of an array-valued map over a list of indices. -/
def sumV (l : List ℕ) (f : ℕ → Vec) : Vec := fun i => (l.map (fun q => f q i)).sum

/-- Dot product of two 3-vectors (`vec3Dot` from TACSElementAlgebra). -/
def vec3Dot (a b : Vec) : ℚ := a 0 * b 0 + a 1 * b 1 + a 2 * b 2

/-!
## The `TACSAverageTemperature` function

Translated from `src/src/functions/TACSAverageTemperature.cpp`.  An element,
as seen by this aggregator, is a record of the callback results the function
reads: whether `getElementBasis` returned a basis, the quadrature data, the
`evalPointQuantity` result for `TACS_TEMPERATURE` (a count and a value) and
the Jacobian determinant.
-/

/-- The two accumulators owned by `TACSAverageTemperature`. -/
structure FuncState where
  volume : ℚ
  integral_temp : ℚ
  deriving DecidableEq

/-- The per-element data read by `TACSAverageTemperature` through the
`TACSElement` / `TACSElementBasis` interfaces. -/
structure ElemModel where
  hasBasis : Bool
  nquad : ℕ
  quadWeight : ℕ → ℚ
  quantityCount : ℕ → ℤ
  quantityValue : ℕ → ℚ
  detJ : ℕ → ℚ
  numNodes : ℕ
  numVars : ℕ

namespace TACSAverageTemperature

/-- `getFunctionValue`: `return integral_temp/volume;` (no guard on the
divisor). -/
def getFunctionValue (s : FuncState) : ℚ := s.integral_temp / s.volume

/-- `initEvaluation`: zero both accumulators. -/
def initEvaluation : FuncState := ⟨0, 0⟩

/-- Body of the quadrature loop of `elementWiseEval`: when the element
reports `count >= 1` for `TACS_TEMPERATURE`, accumulate `detJ*weight` into
`volume` and `detJ*weight*temp` into `integral_temp`. -/
def pointContribution (e : ElemModel) (i : ℕ) (s : FuncState) : FuncState :=
  if 1 ≤ e.quantityCount i then
    ⟨s.volume + e.detJ i * e.quadWeight i,
     s.integral_temp + e.detJ i * e.quadWeight i * e.quantityValue i⟩
  else s

/-- `elementWiseEval`: loop over the element's quadrature points when it has
a basis; otherwise the element contributes nothing. -/
def elementWiseEval (e : ElemModel) (s : FuncState) : FuncState :=
  if e.hasBasis then (List.range e.nquad).foldl (fun s i => pointContribution e i s) s
  else s

/-- The state accumulated on one partition: `initEvaluation` followed by one
`elementWiseEval` per local element. -/
def partitionEval (elems : List ElemModel) : FuncState :=
  elems.foldl (fun s e => elementWiseEval e s) initEvaluation

/-- `finalEvaluation`: a single `MPI_Allreduce(..., MPI_SUM, ...)` of the
2-vector `(volume, integral_temp)` over all partitions. -/
def finalEvaluation (parts : List FuncState) : FuncState :=
  ⟨(parts.map FuncState.volume).sum, (parts.map FuncState.integral_temp).sum⟩

/-- The whole evaluation: per-partition accumulation, then the global sum
reduction. -/
def evaluate (parts : List (List ElemModel)) : FuncState :=
  finalEvaluation (parts.map partitionEval)

/-- Total `weight*detJ` contributed by one element (spec-side description of
the denominator). -/
def elemVolume (e : ElemModel) : ℚ :=
  if e.hasBasis then
    sumQ (List.range e.nquad)
      (fun i => if 1 ≤ e.quantityCount i then e.detJ i * e.quadWeight i else 0)
  else 0

/-- Total `weight*detJ*temperature` contributed by one element (spec-side
description of the numerator). -/
def elemIntegral (e : ElemModel) : ℚ :=
  if e.hasBasis then
    sumQ (List.range e.nquad)
      (fun i => if 1 ≤ e.quantityCount i then
        e.detJ i * e.quadWeight i * e.quantityValue i else 0)
  else 0

/-- `getElementXptSens`: `memset(dfdXpts, 0, 3*numNodes*sizeof(TacsScalar));`
and nothing else. -/
def getElementXptSens (elemIndex : ℕ) (e : ElemModel) (time scale : ℚ)
    (Xpts vars dvars ddvars : Vec) (dfdXpts : Vec) : Vec :=
  fun i => if i < 3 * e.numNodes then 0 else dfdXpts i

/-- The per-quadrature-point scaling `dfdq = detJ*weight/volume` used by both
`getElementSVSens` (line 147) and `addElementDVSens` (line 209); the divisor
is the `volume` accumulator, with no guard. -/
def sensScale (s : FuncState) (e : ElemModel) (i : ℕ) : ℚ :=
  e.detJ i * e.quadWeight i / s.volume

end TACSAverageTemperature

/-!
## The thermal shell element: collaborator interface

`TACSThermalShellElement<quadrature, basis, director, model>` is a template;
the policy classes, the constitutive/transform collaborators and the
`TacsShell*` utility routines live outside `src/`.  Their operation
signatures (spec section 6) are collected in one structure of pure
functions; routines that accumulate into a caller array are modelled as
returning the increment.
-/

/-- Result of `TacsShellComputeDispGrad`: the Jacobian determinant, the two
transform products and the two displacement-gradient blocks. -/
structure DispGradResult where
  detXd : ℚ
  XdinvT : Vec
  XdinvzT : Vec
  u0x : Vec
  u1x : Vec

/-- Result of `model::evalStrainSens`: sensitivities of the integrated
stress-strain product with respect to `u0x`, `u1x` and `e0ty`. -/
structure StrainSens where
  du0x : Vec
  du1x : Vec
  de0ty : Vec

/-- Result of `model::evalStrainHessian`: the six second-derivative blocks. -/
structure StrainHessian where
  d2u0x : Vec
  d2u1x : Vec
  d2u0xu1x : Vec
  d2e0ty : Vec
  d2e0tyu0x : Vec
  d2e0tyu1x : Vec

/-- The operations the element consumes from its template policies
(quadrature, basis, director, strain model), its injected collaborators
(constitutive, transform) and the `TacsShell*` node-level utilities.  Sizes
(`NUM_NODES`, `director::NUM_PARAMETERS`, `NUM_TYING_POINTS`, quadrature and
visualization point counts) are data of the structure. -/
structure ShellPolicies where
  numNodes : ℕ
  numParams : ℕ
  numTyingPoints : ℕ
  numQuad : ℕ
  numVisNodes : ℕ
  quadWeight : ℕ → ℚ
  quadPoint : ℕ → Vec
  getNodePoint : ℕ → Vec
  interpFields : ℕ → ℕ → Vec → Vec → Vec
  interpFieldsGrad : ℕ → ℕ → Vec → Vec → Vec
  addInterpFieldsTranspose : ℕ → ℕ → Vec → Vec → Vec
  addInterpFieldsGradTranspose : ℕ → ℕ → Vec → Vec → Vec
  addInterpFieldsOuterProduct : ℕ → ℕ → ℕ → ℕ → Vec → Vec → Vec
  addInterpGradOuterProduct : ℕ → ℕ → ℕ → ℕ → Vec → Vec → Vec
  interpTyingStrain : Vec → Vec → Vec
  addInterpTyingStrainTranspose : Vec → Vec → Vec
  addInterpTyingStrainHessian : Vec → Vec → Vec
  computeNodeNormals : Vec → Vec × Vec
  computeDrillStrain : Vec → Vec → Vec → Vec × Vec × Vec × Vec × Vec
  addDrillStrainSens : Vec → Vec → Vec → Vec → Vec → Vec → Vec → Vec → Vec
  addDrillStrainHessian : Vec → Vec → Vec → Vec → Vec → Vec → Vec → Vec → Vec → Vec × Vec
  computeDispGrad : Vec → Vec → Vec → Vec → Vec → Vec → Vec → Vec → DispGradResult
  addDispGradSens : Vec → Vec → Vec → Vec → Vec → Vec → Vec × Vec
  addDispGradHessian : Vec → Vec → Vec → Vec → Vec → Vec → Vec → Vec × Vec × Vec
  addTyingDispCoupling : Vec → Vec → Vec → Vec → Vec → Vec → Vec × Vec
  symTransformTranspose : Vec → Vec → Vec
  symTransformTransSens : Vec → Vec → Vec
  symTransformTransHessian : Vec → Vec → Vec
  evalStrain : Vec → Vec → Vec → Vec
  evalStrainSens : ℚ → Vec → Vec → Vec → StrainSens
  evalStrainHessian : ℚ → Vec → Vec → Vec → Vec → Vec → StrainHessian
  computeTyingStrain : Vec → Vec → Vec → Vec → Vec
  addComputeTyingStrainTranspose : Vec → Vec → Vec → Vec → Vec → Vec × Vec
  addComputeTyingStrainHessian : ℚ → Vec → Vec → Vec → Vec → Vec → Vec → Vec → Vec → Vec × Vec × Vec
  computeDirectorRates2 : Vec → Vec → Vec → Vec × Vec
  computeDirectorRates3 : Vec → Vec → Vec → Vec → Vec × Vec × Vec
  addDirectorResidual : Vec → Vec → Vec → Vec → Vec → Vec → Vec
  addDirectorJacobian : ℚ → ℚ → ℚ → Vec → Vec → Vec → Vec → Vec → Vec → Vec → Vec → Vec → Vec → Vec × Vec
  addRotationConstraint : Vec → Vec
  addRotationConstrJacobian : ℚ → Vec → Vec × Vec
  computeTransform : Vec → Vec → Vec
  evalStress : ℕ → Vec → Vec → Vec → Vec
  evalTangentStiffness : ℕ → Vec → Vec → Vec
  evalMassMoments : ℕ → Vec → Vec → Vec
  evalThermalStrain : ℕ → Vec → Vec → ℚ → Vec
  evalHeatFlux : ℕ → Vec → Vec → Vec → Vec
  evalTangentHeatFlux : ℕ → Vec → Vec → Vec
  evalFailure : ℕ → Vec → Vec → Vec → ℚ
  evalDesignFieldValue : ℕ → Vec → Vec → ℕ → ℚ

namespace TACSThermalShellElement

/-- `offset = 4`: three mid-surface displacements plus the temperature
precede the rotation parameters at each node. -/
def offset : ℕ := 4

/-- `vars_per_node = offset + director::NUM_PARAMETERS`. -/
def vars_per_node (P : ShellPolicies) : ℕ := offset + P.numParams

/-- `size = vars_per_node*num_nodes`, the number of element unknowns and the
row stride of the element matrix. -/
def size (P : ShellPolicies) : ℕ := vars_per_node P * P.numNodes

/-- Modelled from the spec: `TACSShellConstitutive::extractTangentStiffness`
(outside `src/`) splits the 22-entry tangent-stiffness array into the
membrane `A`, coupling `B`, bending `D` and transverse-shear `As` blocks and
the drilling stiffness `Cs[21]`. -/
def extractTangentStiffness (Cs : Vec) : Vec × Vec × Vec × Vec × ℚ :=
  (shiftV Cs 0, shiftV Cs 6, shiftV Cs 12, shiftV Cs 18, Cs 21)

/-- Modelled from the spec: `TACSShellConstitutive::computeStress` (outside
`src/`) applies the symmetric block tangent stiffness — `A` and `D` couple
membrane and bending strain through `B`, `As` acts on the two transverse
shears, and the drilling stiffness scales the drilling slot.  Symmetric 3x3
blocks are stored as (11, 12, 13, 22, 23, 33) and `As` as (11, 12, 22). -/
def computeStress (A B D As : Vec) (drill : ℚ) (em : Vec) : Vec :=
  fun i =>
    if i = 0 then A 0 * em 0 + A 1 * em 1 + A 2 * em 2 + B 0 * em 3 + B 1 * em 4 + B 2 * em 5
    else if i = 1 then A 1 * em 0 + A 3 * em 1 + A 4 * em 2 + B 1 * em 3 + B 3 * em 4 + B 4 * em 5
    else if i = 2 then A 2 * em 0 + A 4 * em 1 + A 5 * em 2 + B 2 * em 3 + B 4 * em 4 + B 5 * em 5
    else if i = 3 then B 0 * em 0 + B 1 * em 1 + B 2 * em 2 + D 0 * em 3 + D 1 * em 4 + D 2 * em 5
    else if i = 4 then B 1 * em 0 + B 3 * em 1 + B 4 * em 2 + D 1 * em 3 + D 3 * em 4 + D 4 * em 5
    else if i = 5 then B 2 * em 0 + B 4 * em 1 + B 5 * em 2 + D 2 * em 3 + D 4 * em 4 + D 5 * em 5
    else if i = 6 then As 0 * em 6 + As 1 * em 7
    else if i = 7 then As 1 * em 6 + As 2 * em 7
    else if i = 8 then drill * em 8
    else 0

/-- The quadrature-point (or visualization-point) block shared verbatim by
`computeEnergies`, `addResidual`, `addJacobian` and `getOutputData`:
interpolation of position, position gradient, normal and drilling strain,
the transform, the displacement gradient, the interpolated tying strain and
the 9-component strain with the drilling slot overwritten (`e[8] = et`). -/
structure PointFrame where
  pt : Vec
  X : Vec
  Xxi : Vec
  n0 : Vec
  et : ℚ
  T : Vec
  dg : DispGradResult
  gty : Vec
  e0ty : Vec
  e : Vec

/-- Build the shared quadrature-point block from the node-level data
(`fn`, `etn`, `d`, `ety`) at a parametric point `pt`. -/
def pointFrame (P : ShellPolicies) (Xpts vars fn etn d ety : Vec) (pt : Vec) : PointFrame :=
  let X := P.interpFields 3 3 pt Xpts
  let Xxi := P.interpFieldsGrad 3 3 pt Xpts
  let n0 := P.interpFields 3 3 pt fn
  let et := P.interpFields 1 1 pt etn 0
  let T := P.computeTransform Xxi n0
  let dg := P.computeDispGrad pt Xpts vars fn d Xxi n0 T
  let gty := P.interpTyingStrain pt ety
  let e0ty := P.symTransformTranspose dg.XdinvT gty
  let e := Function.update (P.evalStrain dg.u0x dg.u1x e0ty) 8 et
  ⟨pt, X, Xxi, n0, et, T, dg, gty, e0ty, e⟩

/-- The thermal block of `addResidual`/`addJacobian`/`getOutputData`:
interpolate the temperature (`&vars[3]` with stride `vars_per_node`), query
the constitutive law for the thermal strain, and subtract it from the total
strain to get the mechanical strain `em[i] = e[i] - eth[i]` (`i < 9`). -/
structure ThermalPoint where
  t : ℚ
  eth : Vec
  em : Vec

/-- Build the thermal block at a point frame. -/
def thermalPoint (P : ShellPolicies) (elemIndex : ℕ) (vars : Vec) (f : PointFrame) : ThermalPoint :=
  let t := P.interpFields (vars_per_node P) 1 f.pt (shiftV vars 3) 0
  let eth := P.evalThermalStrain elemIndex f.pt f.X t
  let em := fun i => f.e i - eth i
  ⟨t, eth, em⟩

/-- A 3-vector literal. -/
def vec3 (a b c : ℚ) : Vec := fun i => if i = 0 then a else if i = 1 then b else if i = 2 then c else 0

/-- The in-plane temperature-gradient transform `tx = txi*Xdinv*T` followed
by the heat-flux query and the weighted transform back,
`qxi = detXd * XdinvT * q`, as in `addResidual`/`addJacobian`. -/
def heatFluxGrad (P : ShellPolicies) (elemIndex : ℕ) (vars : Vec) (f : PointFrame)
    (detXd : ℚ) : Vec :=
  let txi := P.interpFieldsGrad (vars_per_node P) 1 f.pt (shiftV vars 3)
  let tx := vec3 (f.dg.XdinvT 0 * txi 0 + f.dg.XdinvT 1 * txi 1)
                 (f.dg.XdinvT 3 * txi 0 + f.dg.XdinvT 4 * txi 1) 0
  let q := P.evalHeatFlux elemIndex f.pt f.X tx
  vec3 (detXd * (f.dg.XdinvT 0 * q 0 + f.dg.XdinvT 3 * q 1))
       (detXd * (f.dg.XdinvT 1 * q 0 + f.dg.XdinvT 4 * q 1)) 0

/-- `computeEnergies`: kinetic (`Te`) and potential (`Ue`) energy.  The
potential energy integrates `0.5 * s^T e` with `s = evalStress(e)` at the
total strain (no thermal-strain subtraction appears in this routine). -/
def computeEnergies (P : ShellPolicies) (elemIndex : ℕ) (time : ℚ)
    (Xpts vars dvars : Vec) : ℚ × ℚ :=
  let nn := P.computeNodeNormals Xpts
  let fn := nn.1
  let Xdn := nn.2
  let drill := P.computeDrillStrain Xdn fn vars
  let etn := drill.2.2.2.2
  let dr := P.computeDirectorRates2 vars dvars fn
  let d := dr.1
  let ddot := dr.2
  let ety := P.computeTyingStrain Xpts fn vars d
  let quads := List.range P.numQuad
  let Te := sumQ quads (fun q =>
    let f := pointFrame P Xpts vars fn etn d ety (P.quadPoint q)
    let detXd := f.dg.detXd * P.quadWeight q
    let moments := P.evalMassMoments elemIndex f.pt f.X
    let u0dot := P.interpFields (vars_per_node P) 3 f.pt dvars
    let d0dot := P.interpFields 3 3 f.pt ddot
    (1/2) * detXd * (moments 0 * vec3Dot u0dot u0dot +
                     2 * moments 1 * vec3Dot u0dot d0dot +
                     moments 2 * vec3Dot d0dot d0dot))
  let Ue := sumQ quads (fun q =>
    let f := pointFrame P Xpts vars fn etn d ety (P.quadPoint q)
    let detXd := f.dg.detXd * P.quadWeight q
    let s := P.evalStress elemIndex f.pt f.X f.e
    (1/2) * detXd * (s 0 * f.e 0 + s 1 * f.e 1 + s 2 * f.e 2 +
                     s 3 * f.e 3 + s 4 * f.e 4 + s 5 * f.e 5 +
                     s 6 * f.e 6 + s 7 * f.e 7 + s 8 * f.e 8))
  (Te, Ue)

/-- `addResidual`: accumulate the element residual into `res`.  Inside the
quadrature loop every accumulator receives a per-point increment that does
not read the accumulators, so each is the sum of its per-point increments;
the node-level transposes (drill, tying, director, rotation constraint)
follow in source order. -/
def addResidual (P : ShellPolicies) (elemIndex : ℕ) (time : ℚ)
    (Xpts vars dvars ddvars : Vec) (res : Vec) : Vec :=
  let nn := P.computeNodeNormals Xpts
  let fn := nn.1
  let Xdn := nn.2
  let drill := P.computeDrillStrain Xdn fn vars
  let XdinvTn := drill.1
  let Tn := drill.2.1
  let u0xn := drill.2.2.1
  let Ctn := drill.2.2.2.1
  let etn := drill.2.2.2.2
  let dr := P.computeDirectorRates3 vars dvars ddvars fn
  let d := dr.1
  let ddot := dr.2.1
  let dddot := dr.2.2
  let ety := P.computeTyingStrain Xpts fn vars d
  let quads := List.range P.numQuad
  let F := fun q => pointFrame P Xpts vars fn etn d ety (P.quadPoint q)
  let detXdW := fun q => (F q).dg.detXd * P.quadWeight q
  let TH := fun q => thermalPoint P elemIndex vars (F q)
  let S := fun q => P.evalStress elemIndex (F q).pt (F q).X (TH q).em
  let sens := fun q => P.evalStrainSens (detXdW q) (S q) (F q).dg.u0x (F q).dg.u1x
  let dispSens := fun q =>
    P.addDispGradSens (F q).pt (F q).T (F q).dg.XdinvT (F q).dg.XdinvzT (sens q).du0x (sens q).du1x
  let moments := fun q => P.evalMassMoments elemIndex (F q).pt (F q).X
  let u0ddot := fun q => P.interpFields (vars_per_node P) 3 (F q).pt ddvars
  let d0ddot := fun q => P.interpFields 3 3 (F q).pt dddot
  let du0dot := fun q => vec3
    (detXdW q * (moments q 0 * u0ddot q 0 + moments q 1 * d0ddot q 0))
    (detXdW q * (moments q 0 * u0ddot q 1 + moments q 1 * d0ddot q 1))
    (detXdW q * (moments q 0 * u0ddot q 2 + moments q 1 * d0ddot q 2))
  let dd0dot := fun q => vec3
    (detXdW q * (moments q 1 * u0ddot q 0 + moments q 2 * d0ddot q 0))
    (detXdW q * (moments q 1 * u0ddot q 1 + moments q 2 * d0ddot q 1))
    (detXdW q * (moments q 1 * u0ddot q 2 + moments q 2 * d0ddot q 2))
  let resLoop := fun i => res i
    + sumV quads (fun q => addShiftV zeroV 3
        (P.addInterpFieldsGradTranspose (vars_per_node P) 1 (F q).pt
          (heatFluxGrad P elemIndex vars (F q) (detXdW q)))) i
    + sumV quads (fun q => (dispSens q).1) i
    + sumV quads (fun q =>
        P.addInterpFieldsTranspose (vars_per_node P) 3 (F q).pt (du0dot q)) i
  let detn := sumV quads (fun q =>
    P.addInterpFieldsTranspose 1 1 (F q).pt
      (fun j => if j = 0 then detXdW q * S q 8 else 0))
  let dd := sumV quads (fun q => (dispSens q).2)
  let dety := sumV quads (fun q =>
    P.addInterpTyingStrainTranspose (F q).pt
      (P.symTransformTransSens (F q).dg.XdinvT (sens q).de0ty))
  let dTdot := sumV quads (fun q => P.addInterpFieldsTranspose 3 3 (F q).pt (dd0dot q))
  let res2 := addV resLoop (P.addDrillStrainSens Xdn fn vars XdinvTn Tn u0xn Ctn detn)
  let tying := P.addComputeTyingStrainTranspose Xpts fn vars d dety
  let res3 := addV res2 tying.1
  let dd2 := addV dd tying.2
  let res4 := addV res3 (P.addDirectorResidual vars dvars ddvars fn dTdot dd2)
  addV res4 (P.addRotationConstraint vars)

end TACSThermalShellElement

namespace TACSThermalShellElement

/-- The quadrature-point tangent-stiffness block of `addJacobian`: the
thermal/mechanical strain, the tangent stiffness `Cs`, the stress recomputed
through `extractTangentStiffness`/`computeStress`, and the strain-model
Hessian evaluated at scale `alpha * detXd`. -/
def jacPointHessian (P : ShellPolicies) (elemIndex : ℕ) (alpha : ℚ)
    (Xpts vars fn etn d ety : Vec) (q : ℕ) : StrainHessian :=
  let f := pointFrame P Xpts vars fn etn d ety (P.quadPoint q)
  let detXd := f.dg.detXd * P.quadWeight q
  let th := thermalPoint P elemIndex vars f
  let Cs := P.evalTangentStiffness elemIndex f.pt f.X
  let ex := extractTangentStiffness Cs
  let s := computeStress ex.1 ex.2.1 ex.2.2.1 ex.2.2.2.1 ex.2.2.2.2 th.em
  P.evalStrainHessian (alpha * detXd) s Cs f.dg.u0x f.dg.u1x f.e0ty

/-- The conduction tangent contribution of one quadrature point:
`q2xi = alpha * detXd * XdinvT * Kt * XdinvT^T` pushed into the temperature
block `&mat[3*(size+1)]` by the gradient outer-product operator. -/
def matConductionInc (P : ShellPolicies) (elemIndex : ℕ) (alpha : ℚ)
    (Xpts vars fn etn d ety : Vec) (q : ℕ) : Vec :=
  let f := pointFrame P Xpts vars fn etn d ety (P.quadPoint q)
  let detXd := f.dg.detXd * P.quadWeight q
  let Kt := P.evalTangentHeatFlux elemIndex f.pt f.X
  let XdinvT := f.dg.XdinvT
  let Ktmp0 := Kt 0 * XdinvT 0 + Kt 1 * XdinvT 3
  let Ktmp1 := Kt 0 * XdinvT 1 + Kt 1 * XdinvT 4
  let Ktmp2 := Kt 1 * XdinvT 0 + Kt 2 * XdinvT 3
  let Ktmp3 := Kt 1 * XdinvT 1 + Kt 2 * XdinvT 4
  let q2xi : Vec := fun i =>
    if i = 0 then alpha * detXd * (XdinvT 0 * Ktmp0 + XdinvT 3 * Ktmp2)
    else if i = 1 then alpha * detXd * (XdinvT 0 * Ktmp1 + XdinvT 3 * Ktmp3)
    else if i = 2 then alpha * detXd * (XdinvT 1 * Ktmp0 + XdinvT 4 * Ktmp2)
    else if i = 3 then alpha * detXd * (XdinvT 1 * Ktmp1 + XdinvT 4 * Ktmp3)
    else 0
  addShiftV zeroV (3 * size P + 3)
    (P.addInterpGradOuterProduct (vars_per_node P) (vars_per_node P) 1 1 f.pt q2xi)

/-- One quadrature point's `TacsShellAddDispGradHessian` push: the matrix
increment and the `d2d`/`d2du` accumulator increments. -/
def dispHessInc (P : ShellPolicies) (elemIndex : ℕ) (alpha : ℚ)
    (Xpts vars fn etn d ety : Vec) (q : ℕ) : Vec × Vec × Vec :=
  let f := pointFrame P Xpts vars fn etn d ety (P.quadPoint q)
  let hess := jacPointHessian P elemIndex alpha Xpts vars fn etn d ety q
  P.addDispGradHessian f.pt f.T f.dg.XdinvT f.dg.XdinvzT hess.d2u0x hess.d2u1x hess.d2u0xu1x

/-- One quadrature point's `TacsShellAddTyingDispCoupling` push into the
`d2etyu`/`d2etyd` accumulators. -/
def tyingCouplingInc (P : ShellPolicies) (elemIndex : ℕ) (alpha : ℚ)
    (Xpts vars fn etn d ety : Vec) (q : ℕ) : Vec × Vec :=
  let f := pointFrame P Xpts vars fn etn d ety (P.quadPoint q)
  let hess := jacPointHessian P elemIndex alpha Xpts vars fn etn d ety q
  P.addTyingDispCoupling f.pt f.T f.dg.XdinvT f.dg.XdinvzT hess.d2e0tyu0x hess.d2e0tyu1x

/-- One quadrature point's tying-strain Hessian increment
(`addInterpTyingStrainHessian` of the transformed `d2e0ty` block). -/
def d2etyInc (P : ShellPolicies) (elemIndex : ℕ) (alpha : ℚ)
    (Xpts vars fn etn d ety : Vec) (q : ℕ) : Vec :=
  let f := pointFrame P Xpts vars fn etn d ety (P.quadPoint q)
  let hess := jacPointHessian P elemIndex alpha Xpts vars fn etn d ety q
  P.addInterpTyingStrainHessian f.pt (P.symTransformTransHessian f.dg.XdinvT hess.d2e0ty)

/-- One quadrature point's drilling-stiffness increment:
`d2et = detXd*alpha*Cs[21]` pushed by the scalar outer-product operator. -/
def d2etnInc (P : ShellPolicies) (elemIndex : ℕ) (alpha : ℚ)
    (Xpts vars fn etn d ety : Vec) (q : ℕ) : Vec :=
  let f := pointFrame P Xpts vars fn etn d ety (P.quadPoint q)
  let detXd := f.dg.detXd * P.quadWeight q
  let Cs := P.evalTangentStiffness elemIndex f.pt f.X
  P.addInterpFieldsOuterProduct 1 1 1 1 f.pt
    (fun j => if j = 0 then detXd * alpha * Cs 21 else 0)

/-- One quadrature point's translational mass contribution: the diagonal
block `gamma * detXd * moments[0]` pushed into the displacement rows. -/
def matMassInc (P : ShellPolicies) (elemIndex : ℕ) (gamma : ℚ)
    (Xpts vars fn etn d ety : Vec) (q : ℕ) : Vec :=
  let f := pointFrame P Xpts vars fn etn d ety (P.quadPoint q)
  let detXd := f.dg.detXd * P.quadWeight q
  let moments := P.evalMassMoments elemIndex f.pt f.X
  P.addInterpFieldsOuterProduct (vars_per_node P) (vars_per_node P) 3 3 f.pt
    (fun i => if i = 0 ∨ i = 4 ∨ i = 8 then gamma * detXd * moments 0 else 0)

/-- One quadrature point's rotational-inertia increment, the diagonal block
`detXd * moments[2]` accumulated into `d2Tdotd` (the time-integration
coefficient is applied later by the director policy). -/
def d2TdotdInc (P : ShellPolicies) (elemIndex : ℕ)
    (Xpts vars fn etn d ety : Vec) (q : ℕ) : Vec :=
  let f := pointFrame P Xpts vars fn etn d ety (P.quadPoint q)
  let detXd := f.dg.detXd * P.quadWeight q
  let moments := P.evalMassMoments elemIndex f.pt f.X
  P.addInterpFieldsOuterProduct 3 3 3 3 f.pt
    (fun i => if i = 0 ∨ i = 4 ∨ i = 8 then detXd * moments 2 else 0)

/-- One quadrature point's coupled-inertia increment, the diagonal block
`detXd * moments[1]` accumulated into `d2Tdotu`. -/
def d2TdotuInc (P : ShellPolicies) (elemIndex : ℕ)
    (Xpts vars fn etn d ety : Vec) (q : ℕ) : Vec :=
  let f := pointFrame P Xpts vars fn etn d ety (P.quadPoint q)
  let detXd := f.dg.detXd * P.quadWeight q
  let moments := P.evalMassMoments elemIndex f.pt f.X
  P.addInterpFieldsOuterProduct 3 3 3 3 f.pt
    (fun i => if i = 0 ∨ i = 4 ∨ i = 8 then detXd * moments 1 else 0)

/-- `addJacobian`: accumulate the element residual into `res` and the
tangent matrix (row stride `size`) into `mat`, scaled by the coefficients
`alpha`, `beta`, `gamma`.  As in `addResidual`, every in-loop accumulator
receives per-point increments that do not read the accumulators, so each is
a sum over quadrature points of its named increment; the node-level Hessian
pushes (drill, tying, director, rotation constraint) follow in source
order. -/
def addJacobian (P : ShellPolicies) (elemIndex : ℕ) (time alpha beta gamma : ℚ)
    (Xpts vars dvars ddvars : Vec) (res mat : Vec) : Vec × Vec :=
  let nn := P.computeNodeNormals Xpts
  let fn := nn.1
  let Xdn := nn.2
  let drill := P.computeDrillStrain Xdn fn vars
  let XdinvTn := drill.1
  let Tn := drill.2.1
  let u0xn := drill.2.2.1
  let Ctn := drill.2.2.2.1
  let etn := drill.2.2.2.2
  let dr := P.computeDirectorRates3 vars dvars ddvars fn
  let d := dr.1
  let ddot := dr.2.1
  let dddot := dr.2.2
  let ety := P.computeTyingStrain Xpts fn vars d
  let quads := List.range P.numQuad
  let F := fun q => pointFrame P Xpts vars fn etn d ety (P.quadPoint q)
  let detXdW := fun q => (F q).dg.detXd * P.quadWeight q
  let TH := fun q => thermalPoint P elemIndex vars (F q)
  let Cs := fun q => P.evalTangentStiffness elemIndex (F q).pt (F q).X
  let S := fun q =>
    let ex := extractTangentStiffness (Cs q)
    computeStress ex.1 ex.2.1 ex.2.2.1 ex.2.2.2.1 ex.2.2.2.2 (TH q).em
  let sens := fun q => P.evalStrainSens (detXdW q) (S q) (F q).dg.u0x (F q).dg.u1x
  let dispSens := fun q =>
    P.addDispGradSens (F q).pt (F q).T (F q).dg.XdinvT (F q).dg.XdinvzT (sens q).du0x (sens q).du1x
  let moments := fun q => P.evalMassMoments elemIndex (F q).pt (F q).X
  let u0ddot := fun q => P.interpFields (vars_per_node P) 3 (F q).pt ddvars
  let d0ddot := fun q => P.interpFields 3 3 (F q).pt dddot
  let du0dot := fun q => vec3
    (detXdW q * (moments q 0 * u0ddot q 0 + moments q 1 * d0ddot q 0))
    (detXdW q * (moments q 0 * u0ddot q 1 + moments q 1 * d0ddot q 1))
    (detXdW q * (moments q 0 * u0ddot q 2 + moments q 1 * d0ddot q 2))
  let dd0dot := fun q => vec3
    (detXdW q * (moments q 1 * u0ddot q 0 + moments q 2 * d0ddot q 0))
    (detXdW q * (moments q 1 * u0ddot q 1 + moments q 2 * d0ddot q 1))
    (detXdW q * (moments q 1 * u0ddot q 2 + moments q 2 * d0ddot q 2))
  let resLoop := fun i => res i
    + sumV quads (fun q => addShiftV zeroV 3
        (P.addInterpFieldsGradTranspose (vars_per_node P) 1 (F q).pt
          (heatFluxGrad P elemIndex vars (F q) (detXdW q)))) i
    + sumV quads (fun q => (dispSens q).1) i
    + sumV quads (fun q =>
        P.addInterpFieldsTranspose (vars_per_node P) 3 (F q).pt (du0dot q)) i
  let matLoop := fun i => mat i
    + sumV quads (fun q => matConductionInc P elemIndex alpha Xpts vars fn etn d ety q) i
    + sumV quads (fun q => (dispHessInc P elemIndex alpha Xpts vars fn etn d ety q).1) i
    + sumV quads (fun q => matMassInc P elemIndex gamma Xpts vars fn etn d ety q) i
  let detn := sumV quads (fun q =>
    P.addInterpFieldsTranspose 1 1 (F q).pt
      (fun j => if j = 0 then detXdW q * S q 8 else 0))
  let d2etn := sumV quads (fun q => d2etnInc P elemIndex alpha Xpts vars fn etn d ety q)
  let dd := sumV quads (fun q => (dispSens q).2)
  let d2d := sumV quads (fun q => (dispHessInc P elemIndex alpha Xpts vars fn etn d ety q).2.1)
  let d2du := sumV quads (fun q => (dispHessInc P elemIndex alpha Xpts vars fn etn d ety q).2.2)
  let dety := sumV quads (fun q =>
    P.addInterpTyingStrainTranspose (F q).pt
      (P.symTransformTransSens (F q).dg.XdinvT (sens q).de0ty))
  let d2ety := sumV quads (fun q => d2etyInc P elemIndex alpha Xpts vars fn etn d ety q)
  let d2etyu := sumV quads (fun q => (tyingCouplingInc P elemIndex alpha Xpts vars fn etn d ety q).1)
  let d2etyd := sumV quads (fun q => (tyingCouplingInc P elemIndex alpha Xpts vars fn etn d ety q).2)
  let dTdot := sumV quads (fun q => P.addInterpFieldsTranspose 3 3 (F q).pt (dd0dot q))
  let d2Tdotd := sumV quads (fun q => d2TdotdInc P elemIndex Xpts vars fn etn d ety q)
  let d2Tdotu := sumV quads (fun q => d2TdotuInc P elemIndex Xpts vars fn etn d ety q)
  let drillH := P.addDrillStrainHessian Xdn fn vars XdinvTn Tn u0xn Ctn detn d2etn
  let res2 := addV resLoop drillH.1
  let mat2 := addV matLoop drillH.2
  let tying := P.addComputeTyingStrainTranspose Xpts fn vars d dety
  let res3 := addV res2 tying.1
  let dd2 := addV dd tying.2
  let tyingH := P.addComputeTyingStrainHessian alpha Xpts fn vars d dety d2ety d2etyu d2etyd
  let mat3 := addV mat2 tyingH.1
  let d2d2 := addV d2d tyingH.2.1
  let d2du2 := addV d2du tyingH.2.2
  let dirJ := P.addDirectorJacobian alpha beta gamma vars dvars ddvars fn dTdot dd2
    d2Tdotd d2Tdotu d2d2 d2du2
  let res4 := addV res3 dirJ.1
  let mat4 := addV mat3 dirJ.2
  let rotJ := P.addRotationConstrJacobian alpha vars
  (addV res4 rotJ.1, addV mat4 rotJ.2)

/-- `ElementType` argument of `getOutputData`; only
`TACS_BEAM_OR_SHELL_ELEMENT` selects any writes. -/
inductive ElementType where
  | beamOrShell : ElementType
  | other : ElementType
  deriving DecidableEq

/-- The five output field groups selected by the `write_flag` bitmask, in
the fixed order checked by `getOutputData`. -/
structure OutputFlags where
  nodes : Bool
  displacements : Bool
  strains : Bool
  stresses : Bool
  extras : Bool

/-- Sequential writes into the output buffer, advancing the data pointer by
one per value. -/
def writeVals : Vec → ℕ → List ℚ → Vec
  | buf, _, [] => buf
  | buf, pos, v :: rest => writeVals (Function.update buf pos v) (pos + 1) rest

/-- The per-visualization-node data computed by `getOutputData`: the shared
point frame at `basis::getNodePoint(index)` (no quadrature weight), the
thermal block and the stress at the mechanical strain. -/
structure OutputPointData where
  frame : PointFrame
  th : ThermalPoint
  s : Vec

/-- Build the per-visualization-node data. -/
def outputPointData (P : ShellPolicies) (elemIndex : ℕ) (Xpts vars fn etn d ety : Vec)
    (index : ℕ) : OutputPointData :=
  let f := pointFrame P Xpts vars fn etn d ety (P.getNodePoint index)
  let th := thermalPoint P elemIndex vars f
  let s := P.evalStress elemIndex f.pt f.X th.em
  ⟨f, th, s⟩

/-- The six-entry displacement segment: the first `min(vars_per_node, 6)`
nodal variables, zero-padded to six. -/
def dispSegment (P : ShellPolicies) (vars : Vec) (index : ℕ) : List ℚ :=
  List.ofFn fun i : Fin 6 =>
    if (i : ℕ) < min (vars_per_node P) 6 then vars (i + vars_per_node P * index) else 0

/-- The values written for one visualization node, as the concatenation of
the bitmask-selected segments in source order: coordinates (3),
displacements (6), strains (9), stresses (9), extras (4). -/
def nodeSegments (P : ShellPolicies) (flags : OutputFlags) (elemIndex : ℕ)
    (Xpts vars fn etn d ety : Vec) (index : ℕ) : List ℚ :=
  let D := outputPointData P elemIndex Xpts vars fn etn d ety index
  (if flags.nodes then [D.frame.X 0, D.frame.X 1, D.frame.X 2] else [])
  ++ (if flags.displacements then dispSegment P vars index else [])
  ++ (if flags.strains then List.ofFn (fun i : Fin 9 => D.frame.e i) else [])
  ++ (if flags.stresses then List.ofFn (fun i : Fin 9 => D.s i) else [])
  ++ (if flags.extras then
        [P.evalFailure elemIndex D.frame.pt D.frame.X D.frame.e,
         P.evalDesignFieldValue elemIndex D.frame.pt D.frame.X 0,
         P.evalDesignFieldValue elemIndex D.frame.pt D.frame.X 1,
         P.evalDesignFieldValue elemIndex D.frame.pt D.frame.X 2]
      else [])

/-- `getOutputData`: loop over the visualization nodes; when `etype` is
`TACS_BEAM_OR_SHELL_ELEMENT`, write the selected segments sequentially and
advance the data pointer by the number of values written; otherwise write
nothing.  The `ld_data` argument is never read. -/
def getOutputData (P : ShellPolicies) (elemIndex : ℕ) (etype : ElementType)
    (flags : OutputFlags) (Xpts vars dvars ddvars : Vec) (ld_data : ℤ)
    (data : Vec) : Vec :=
  let nn := P.computeNodeNormals Xpts
  let fn := nn.1
  let Xdn := nn.2
  let drill := P.computeDrillStrain Xdn fn vars
  let etn := drill.2.2.2.2
  let dr := P.computeDirectorRates2 vars dvars fn
  let d := dr.1
  let ety := P.computeTyingStrain Xpts fn vars d
  let step := fun (st : ℕ × Vec) (index : ℕ) =>
    if etype = ElementType.beamOrShell then
      let segs := nodeSegments P flags elemIndex Xpts vars fn etn d ety index
      (st.1 + segs.length, writeVals st.2 st.1 segs)
    else st
  ((List.range P.numVisNodes).foldl step (0, data)).2

end TACSThermalShellElement

/-!
## A concrete policy instance

Modelled from the spec: none of the policy classes is under `src/`, so a
concrete member of the policy family is built here, following spec sections
2, 4.1 and 6.  It is the smallest linear instance that still exercises every
path of the element: two nodes with a linear one-parameter basis along the
first parametric direction, a one-parameter linearized director per node, one
tying point whose strain mixes the transverse displacement and the director,
a drilling strain tying the rotation parameter to the in-plane displacement
gradient, an identity transform, and a linear constitutive law with
membrane/bending coupling, transverse shear and drilling stiffness, mass
moments, conduction and a temperature-proportional thermal strain.
-/

namespace LinShell

/-- 3-vector literals reuse the element's helper. -/
def vec3 (a b c : ℚ) : Vec := TACSThermalShellElement.vec3 a b c

/-- Shape function of node `j` (linear in the first parametric coordinate):
`N0 = 1 - xi`, `N1 = xi`. -/
def shapeN (pt : Vec) (j : ℕ) : ℚ := if j = 0 then 1 - pt 0 else pt 0

/-- Parametric derivative of the shape function of node `j` along the first
direction (the second-direction derivative is identically zero). -/
def dshapeN (j : ℕ) : ℚ := if j = 0 then -1 else 1

/-- Modelled from the spec: `basis::interpFields<m, n>` interpolates the
first `n` of `m` per-node values. -/
def interpFields (m n : ℕ) (pt v : Vec) : Vec :=
  fun c => (1 - pt 0) * v c + pt 0 * v (m + c)

/-- Modelled from the spec: `basis::interpFieldsGrad<m, n>`; component `c`
has gradient `(v(node 1) - v(node 0), 0)` stored at `(2c, 2c+1)`. -/
def interpFieldsGrad (m n : ℕ) (pt v : Vec) : Vec :=
  fun idx => if idx % 2 = 0 then v (m + idx / 2) - v (idx / 2) else 0

/-- Modelled from the spec: transpose (test-function) interpolation
operator, the adjoint of `interpFields`. -/
def addInterpFieldsTranspose (m n : ℕ) (pt vals : Vec) : Vec :=
  fun i => if i % m < n ∧ i / m < 2 then shapeN pt (i / m) * vals (i % m) else 0

/-- Modelled from the spec: transpose gradient-interpolation operator, the
adjoint of `interpFieldsGrad` (the second parametric direction has zero
shape derivative). -/
def addInterpFieldsGradTranspose (m n : ℕ) (pt vals : Vec) : Vec :=
  fun i => if i % m < n ∧ i / m < 2 then dshapeN (i / m) * vals (2 * (i % m)) else 0

/-- Modelled from the spec: outer-product operator for value interpolation;
writes `N_i N_j jac(c1, c2)` at matrix entry `(m1 i + c1, m2 j + c2)` with
row stride `m2 * NUM_NODES`. -/
def addInterpFieldsOuterProduct (m1 m2 n1 n2 : ℕ) (pt jac : Vec) : Vec :=
  fun idx =>
    let row := idx / (m2 * 2)
    let col := idx % (m2 * 2)
    if row % m1 < n1 ∧ row / m1 < 2 ∧ col % m2 < n2 ∧ col / m2 < 2 then
      shapeN pt (row / m1) * shapeN pt (col / m2) * jac (n2 * (row % m1) + col % m2)
    else 0

/-- Modelled from the spec: outer-product operator for gradient
interpolation; the 2x2 parametric block `jac` is contracted with the shape
derivatives (second-direction derivatives vanish for this basis). -/
def addInterpGradOuterProduct (m1 m2 n1 n2 : ℕ) (pt jac : Vec) : Vec :=
  fun idx =>
    let row := idx / (m2 * 2)
    let col := idx % (m2 * 2)
    if row % m1 < n1 ∧ row / m1 < 2 ∧ col % m2 < n2 ∧ col / m2 < 2 then
      dshapeN (row / m1) * (jac (4 * (n2 * (row % m1) + col % m2)) * dshapeN (col / m2)
        + jac (4 * (n2 * (row % m1) + col % m2) + 1) * 0)
      + 0 * (jac (4 * (n2 * (row % m1) + col % m2) + 2) * dshapeN (col / m2)
        + jac (4 * (n2 * (row % m1) + col % m2) + 3) * 0)
    else 0

/-- Modelled from the spec: one tying point, interpolated with unit weight
into the (1,2)-slot of the symmetric tying strain. -/
def interpTyingStrain (pt ety : Vec) : Vec := fun i => if i = 1 then ety 0 else 0

/-- Adjoint of `interpTyingStrain`. -/
def addInterpTyingStrainTranspose (pt dgty : Vec) : Vec :=
  fun i => if i = 0 then dgty 1 else 0

/-- Second-derivative transpose of `interpTyingStrain`: picks the
((1,2),(1,2)) entry of the 6x6 block. -/
def addInterpTyingStrainHessian (pt d2gty : Vec) : Vec :=
  fun i => if i = 0 then d2gty 7 else 0

/-- Visualization nodes sit at parametric coordinates 0 and 1. -/
def getNodePoint (n : ℕ) : Vec := vec3 (n : ℚ) 0 0

/-- Row index of compressed symmetric 3x3 slot `c` (order 11,12,13,22,23,33). -/
def symRow (c : ℕ) : ℕ := if c = 0 ∨ c = 1 ∨ c = 2 then 0 else if c = 3 ∨ c = 4 then 1 else 2

/-- Column index of compressed symmetric 3x3 slot `c`. -/
def symCol (c : ℕ) : ℕ := if c = 0 then 0 else if c = 1 ∨ c = 3 then 1 else if c = 2 ∨ c = 4 then 2 else 2

/-- Compressed index of entry `(i, j)` of a symmetric 3x3 matrix. -/
def symIdx (i j : ℕ) : ℕ :=
  if i = 0 ∧ j = 0 then 0
  else if (i = 0 ∧ j = 1) ∨ (i = 1 ∧ j = 0) then 1
  else if (i = 0 ∧ j = 2) ∨ (i = 2 ∧ j = 0) then 2
  else if i = 1 ∧ j = 1 then 3
  else if (i = 1 ∧ j = 2) ∨ (i = 2 ∧ j = 1) then 4
  else 5

/-- Entry `(i, j)` of the congruence transform `T^T G T` of a compressed
symmetric matrix `g`. -/
def symCongruenceEntry (T g : Vec) (i j : ℕ) : ℚ :=
  sumQ (List.range 3) (fun k => sumQ (List.range 3) (fun l =>
    T (3 * k + i) * g (symIdx k l) * T (3 * l + j)))

/-- Modelled from the spec: `mat3x3SymmTransformTranspose`, computing
`e0ty = XdinvT^T gty XdinvT` in compressed storage. -/
def mat3x3SymmTransformTranspose (T g : Vec) : Vec :=
  fun c => if c < 6 then symCongruenceEntry T g (symRow c) (symCol c) else 0

/-- Derivative of compressed slot `c` of `T^T G T` with respect to
compressed slot `cp` of `G`. -/
def symCongCoef (T : Vec) (c cp : ℕ) : ℚ :=
  let k := symRow cp
  let l := symCol cp
  if k = l then T (3 * k + symRow c) * T (3 * k + symCol c)
  else T (3 * k + symRow c) * T (3 * l + symCol c) + T (3 * l + symRow c) * T (3 * k + symCol c)

/-- Modelled from the spec: `mat3x3SymmTransformTransSens`, the adjoint of
`mat3x3SymmTransformTranspose`. -/
def mat3x3SymmTransformTransSens (T de0ty : Vec) : Vec :=
  fun cp => if cp < 6 then sumQ (List.range 6) (fun c => de0ty c * symCongCoef T c cp) else 0

/-- Modelled from the spec: `mat3x3SymmTransformTransHessian`, the
congruence push of a 6x6 second-derivative block through the transform. -/
def mat3x3SymmTransformTransHessian (T d2e0ty : Vec) : Vec :=
  fun idx => if idx < 36 then
    sumQ (List.range 6) (fun c => sumQ (List.range 6) (fun c2 =>
      symCongCoef T c (idx / 6) * d2e0ty (6 * c + c2) * symCongCoef T c2 (idx % 6)))
  else 0

/-- The flattened 3x3 identity, used for the transform and for `XdinvT` of
the unit-geometry displacement gradient. -/
def id9 : Vec := fun idx => if idx = 0 ∨ idx = 4 ∨ idx = 8 then 1 else 0

/-- Modelled from the spec: node normals are the global z-axis at both
nodes of this flat element (`Xdn` is unused downstream). -/
def computeNodeNormals (Xpts : Vec) : Vec × Vec :=
  (fun i => if i % 3 = 2 then 1 else 0, zeroV)

/-- Nodal drilling strain: rotation parameter minus the in-plane rotation
of the displacement field, `etn(n) = vars[5n+4] - (uy(1) - uy(0))`; zero for
a displacement field rotating consistently with the parameter. -/
def etnOf (vars : Vec) (n : ℕ) : ℚ := vars (5 * n + 4) - (vars 6 - vars 1)

/-- Gradient of `etnOf vars n` with respect to the global variables. -/
def drillGrad (n : ℕ) : Vec :=
  fun i => if i = 5 * n + 4 then 1 else if i = 1 then 1 else if i = 6 then -1 else 0

/-- Modelled from the spec: `TacsShellComputeDrillStrain`; only the drilling
strains `etn` are consumed by this linear model (the transform records are
returned as zero). -/
def computeDrillStrain (Xdn fn vars : Vec) : Vec × Vec × Vec × Vec × Vec :=
  (zeroV, zeroV, zeroV, zeroV, fun n => etnOf vars n)

/-- Modelled from the spec: `TacsShellAddDrillStrainSens`, the adjoint of
the drilling-strain computation. -/
def addDrillStrainSens (Xdn fn vars XdinvTn Tn u0xn Ctn detn : Vec) : Vec :=
  fun i => detn 0 * drillGrad 0 i + detn 1 * drillGrad 1 i

/-- Modelled from the spec: `TacsShellAddDrillStrainHessian`; the residual
push plus the congruence of `d2etn` through the (linear) drilling-strain
gradient. -/
def addDrillStrainHessian (Xdn fn vars XdinvTn Tn u0xn Ctn detn d2etn : Vec) : Vec × Vec :=
  (addDrillStrainSens Xdn fn vars XdinvTn Tn u0xn Ctn detn,
   fun idx =>
     d2etn 0 * drillGrad 0 (idx / 10) * drillGrad 0 (idx % 10)
     + d2etn 1 * drillGrad 0 (idx / 10) * drillGrad 1 (idx % 10)
     + d2etn 2 * drillGrad 1 (idx / 10) * drillGrad 0 (idx % 10)
     + d2etn 3 * drillGrad 1 (idx / 10) * drillGrad 1 (idx % 10))

/-- Modelled from the spec: `TacsShellComputeDispGrad` for the unit flat
geometry: `detXd = 1`, `XdinvT` the identity, `XdinvzT = 0`, and the
gradient blocks hold the first-direction differences of the displacements
and of the director field. -/
def computeDispGrad (pt Xpts vars fn d Xxi n0 T : Vec) : DispGradResult :=
  { detXd := 1
    XdinvT := id9
    XdinvzT := zeroV
    u0x := fun idx => if idx % 3 = 0 then vars (5 + idx / 3) - vars (idx / 3) else 0
    u1x := fun idx => if idx % 3 = 0 then d (3 + idx / 3) - d (idx / 3) else 0 }

/-- Coefficient of global variable `i` in `u0x(3r)` (the only nonzero
displacement-gradient slots). -/
def uCoef (i r : ℕ) : ℚ := if i = r then -1 else if i = 5 + r then 1 else 0

/-- Coefficient of 3-per-node slot `p` in the first-direction difference of
a 3-vector nodal field (director components and displacement components in
3-per-node layout). -/
def pmCoef (p r : ℕ) : ℚ := if p = r then -1 else if p = 3 + r then 1 else 0

/-- Modelled from the spec: `TacsShellAddDispGradSens`, the adjoint of
`computeDispGrad`: `du0x` flows to the displacement rows of the residual and
`du1x` to the director accumulator. -/
def addDispGradSens (pt T XdinvT XdinvzT du0x du1x : Vec) : Vec × Vec :=
  (fun i => if i < 3 then -du0x (3 * i) else if 5 ≤ i ∧ i < 8 then du0x (3 * (i - 5)) else 0,
   fun p => if p < 3 then -du1x (3 * p) else if p < 6 then du1x (3 * (p - 3)) else 0)

/-- Modelled from the spec: `TacsShellAddDispGradHessian`; congruence of the
second-derivative blocks through the displacement-gradient map into the
element matrix and the director accumulators. -/
def addDispGradHessian (pt T XdinvT XdinvzT d2u0x d2u1x d2u0xu1x : Vec) : Vec × Vec × Vec :=
  (fun idx =>
     sumQ (List.range 3) (fun r1 => sumQ (List.range 3) (fun r2 =>
       d2u0x (9 * (3 * r1) + 3 * r2) * uCoef (idx / 10) r1 * uCoef (idx % 10) r2)),
   fun idx =>
     sumQ (List.range 3) (fun r1 => sumQ (List.range 3) (fun r2 =>
       d2u1x (9 * (3 * r1) + 3 * r2) * pmCoef (idx / 6) r1 * pmCoef (idx % 6) r2)),
   fun idx =>
     sumQ (List.range 3) (fun r1 => sumQ (List.range 3) (fun r2 =>
       d2u0xu1x (9 * (3 * r2) + 3 * r1) * pmCoef (idx / 6) r1 * pmCoef (idx % 6) r2)))

/-- Modelled from the spec: `TacsShellAddTyingDispCoupling`; the tying point
reads the (1,2)-slot, so row 1 of the cross blocks is pushed through the
displacement-gradient and director maps. -/
def addTyingDispCoupling (pt T XdinvT XdinvzT d2e0tyu0x d2e0tyu1x : Vec) : Vec × Vec :=
  (fun a => sumQ (List.range 3) (fun r => d2e0tyu0x (9 * 1 + 3 * r) * pmCoef a r),
   fun p => sumQ (List.range 3) (fun r => d2e0tyu1x (9 * 1 + 3 * r) * pmCoef p r))

/-- Modelled from the spec: the strain model; membrane slot 0 from `u0x[0]`,
bending slot 3 from `u1x[0]`, transverse shear slot 6 from the tying slot
`e0ty[1]`, drilling slot left for the caller to overwrite. -/
def evalStrain (u0x u1x e0ty : Vec) : Vec :=
  fun i => if i = 0 then u0x 0 else if i = 3 then u1x 0 else if i = 6 then e0ty 1 else 0

/-- Modelled from the spec: `model::evalStrainSens`, the exact adjoint of
`evalStrain` scaled by `scale`. -/
def evalStrainSens (scale : ℚ) (s u0x u1x : Vec) : StrainSens :=
  ⟨fun a => if a = 0 then scale * s 0 else 0,
   fun a => if a = 0 then scale * s 3 else 0,
   fun a => if a = 1 then scale * s 6 else 0⟩

/-- Modelled from the spec: `model::evalStrainHessian` for the linear strain
model: the constitutive blocks land on the matching gradient slots and there
is no geometric (stress-dependent) term. -/
def evalStrainHessian (scale : ℚ) (s Cs u0x u1x e0ty : Vec) : StrainHessian :=
  ⟨fun a => if a = 0 then scale * Cs 0 else 0,
   fun a => if a = 0 then scale * Cs 12 else 0,
   fun a => if a = 0 then scale * Cs 6 else 0,
   fun a => if a = 7 then scale * Cs 18 else 0,
   zeroV, zeroV⟩

/-- Modelled from the spec: the tying strain sample, a transverse-shear
measure `ety[0] = (uz(1) - uz(0)) + (d0(0) + d0(1))/2`. -/
def computeTyingStrain (Xpts fn vars d : Vec) : Vec :=
  fun i => if i = 0 then (vars 7 - vars 2) + (1/2) * (d 0 + d 3) else 0

/-- Gradient of the tying strain with respect to the global variables
(displacement part). -/
def tyu (i : ℕ) : ℚ := if i = 7 then 1 else if i = 2 then -1 else 0

/-- Gradient of the tying strain in the 3-per-node displacement layout. -/
def tyu3 (a : ℕ) : ℚ := if a = 5 then 1 else if a = 2 then -1 else 0

/-- Gradient of the tying strain with respect to the director components. -/
def tyd (p : ℕ) : ℚ := if p = 0 ∨ p = 3 then 1/2 else 0

/-- Read a 3-per-node displacement-layout array at the slot of global
variable `i` (or zero if `i` is not a displacement variable). -/
def uMap (i : ℕ) (arr : Vec) : ℚ :=
  if i < 3 then arr i else if 5 ≤ i ∧ i < 8 then arr (i - 2) else 0

/-- Modelled from the spec: `model::addComputeTyingStrainTranspose`, the
adjoint of `computeTyingStrain` into the residual and the director
accumulator. -/
def addComputeTyingStrainTranspose (Xpts fn vars d dety : Vec) : Vec × Vec :=
  (fun i => if i = 7 then dety 0 else if i = 2 then -dety 0 else 0,
   fun p => if p = 0 ∨ p = 3 then (1/2) * dety 0 else 0)

/-- Modelled from the spec: `model::addComputeTyingStrainHessian`; the
congruence of `d2ety` and the cross blocks through the (linear) tying-strain
gradients — the geometric `dety` term vanishes for a linear tying strain. -/
def addComputeTyingStrainHessian (alpha : ℚ) (Xpts fn vars d dety d2ety d2etyu d2etyd : Vec) :
    Vec × Vec × Vec :=
  (fun idx =>
     d2ety 0 * tyu (idx / 10) * tyu (idx % 10)
     + tyu (idx / 10) * uMap (idx % 10) d2etyu
     + uMap (idx / 10) d2etyu * tyu (idx % 10),
   fun idx =>
     d2ety 0 * tyd (idx / 6) * tyd (idx % 6)
     + tyd (idx / 6) * d2etyd (idx % 6)
     + d2etyd (idx / 6) * tyd (idx % 6),
   fun idx =>
     d2ety 0 * tyd (idx / 6) * tyu3 (idx % 6)
     + tyd (idx / 6) * d2etyu (idx % 6)
     + d2etyd (idx / 6) * tyu3 (idx % 6))

/-- The linearized one-parameter director map: `d(3n) = vars[5n+4]`, other
components zero; the same map sends rates to director rates. -/
def dirMap (v : Vec) : Vec := fun p => if p % 3 = 0 then v (5 * (p / 3) + 4) else 0

/-- Modelled from the spec: `director::computeDirectorRates` (two-rate
form). -/
def computeDirectorRates2 (vars dvars fn : Vec) : Vec × Vec := (dirMap vars, dirMap dvars)

/-- Modelled from the spec: `director::computeDirectorRates` (three-rate
form). -/
def computeDirectorRates3 (vars dvars ddvars fn : Vec) : Vec × Vec × Vec :=
  (dirMap vars, dirMap dvars, dirMap ddvars)

/-- Modelled from the spec: `director::addDirectorResidual`, the chain rule
from the director accumulators back to the rotation parameters. -/
def addDirectorResidual (vars dvars ddvars fn dTdot dd : Vec) : Vec :=
  fun i => if i = 4 then dd 0 + dTdot 0 else if i = 9 then dd 3 + dTdot 3 else 0

/-- Whether global variable `i` is a displacement component. -/
def isU (i : ℕ) : Prop := i < 3 ∨ (5 ≤ i ∧ i < 8)

instance (i : ℕ) : Decidable (isU i) := by unfold isU; infer_instance

/-- The 3-per-node displacement slot of global variable `i`. -/
def uOf (i : ℕ) : ℕ := if i < 3 then i else i - 2

/-- Modelled from the spec: `director::addDirectorJacobian`; the residual
push plus the chain rule of the second-derivative accumulators, with the
acceleration blocks `d2Tdotd`/`d2Tdotu` scaled by `gamma` (spec section
4.4), placed symmetrically. -/
def addDirectorJacobian (alpha beta gamma : ℚ)
    (vars dvars ddvars fn dTdot dd d2Tdotd d2Tdotu d2d d2du : Vec) : Vec × Vec :=
  (addDirectorResidual vars dvars ddvars fn dTdot dd,
   fun idx =>
     let i := idx / 10
     let j := idx % 10
     let dd2 := fun p q => d2d (6 * p + q) + gamma * d2Tdotd (6 * p + q)
     let ddu := fun p a => d2du (6 * p + a) + gamma * d2Tdotu (6 * p + a)
     if i = 4 ∧ j = 4 then dd2 0 0
     else if i = 4 ∧ j = 9 then dd2 0 3
     else if i = 9 ∧ j = 4 then dd2 3 0
     else if i = 9 ∧ j = 9 then dd2 3 3
     else if i = 4 ∧ isU j then ddu 0 (uOf j)
     else if i = 9 ∧ isU j then ddu 3 (uOf j)
     else if isU i ∧ j = 4 then ddu 0 (uOf i)
     else if isU i ∧ j = 9 then ddu 3 (uOf i)
     else 0)

/-- Modelled from the spec: the one-parameter linearized director has no
rotation constraint. -/
def addRotationConstraint (vars : Vec) : Vec := zeroV

/-- Modelled from the spec: no rotation-constraint Jacobian either. -/
def addRotationConstrJacobian (alpha : ℚ) (vars : Vec) : Vec × Vec := (zeroV, zeroV)

/-- Modelled from the spec: the tangent stiffness array; `A(1,1) = 4`,
`B(1,1) = 1`, `D(1,1) = 2`, `As(1,1) = 3`, drilling stiffness `5`. -/
def CsVal : Vec :=
  fun i => if i = 0 then 4 else if i = 6 then 1 else if i = 12 then 2
    else if i = 18 then 3 else if i = 21 then 5 else 0

/-- Modelled from the spec: a thermal-strain coefficient vector that
populates membrane, bending, transverse-shear and drilling slots. -/
def thermalCoef : Vec :=
  fun i => if i = 0 then 1 else if i = 3 then 1/2 else if i = 6 then 1/4
    else if i = 8 then 1/3 else 0

/-- The concrete policy instance, parameterized by the thermal-strain
coefficient vector of its constitutive law (`evalThermalStrain` returns
`t * ethc`). -/
def pol (ethc : Vec) : ShellPolicies where
  numNodes := 2
  numParams := 1
  numTyingPoints := 1
  numQuad := 1
  numVisNodes := 2
  quadWeight := fun _ => 1
  quadPoint := fun q => vec3 (1/2) 0 0
  getNodePoint := getNodePoint
  interpFields := interpFields
  interpFieldsGrad := interpFieldsGrad
  addInterpFieldsTranspose := addInterpFieldsTranspose
  addInterpFieldsGradTranspose := addInterpFieldsGradTranspose
  addInterpFieldsOuterProduct := addInterpFieldsOuterProduct
  addInterpGradOuterProduct := addInterpGradOuterProduct
  interpTyingStrain := interpTyingStrain
  addInterpTyingStrainTranspose := addInterpTyingStrainTranspose
  addInterpTyingStrainHessian := addInterpTyingStrainHessian
  computeNodeNormals := computeNodeNormals
  computeDrillStrain := computeDrillStrain
  addDrillStrainSens := addDrillStrainSens
  addDrillStrainHessian := addDrillStrainHessian
  computeDispGrad := computeDispGrad
  addDispGradSens := addDispGradSens
  addDispGradHessian := addDispGradHessian
  addTyingDispCoupling := addTyingDispCoupling
  symTransformTranspose := mat3x3SymmTransformTranspose
  symTransformTransSens := mat3x3SymmTransformTransSens
  symTransformTransHessian := mat3x3SymmTransformTransHessian
  evalStrain := evalStrain
  evalStrainSens := evalStrainSens
  evalStrainHessian := evalStrainHessian
  computeTyingStrain := computeTyingStrain
  addComputeTyingStrainTranspose := addComputeTyingStrainTranspose
  addComputeTyingStrainHessian := addComputeTyingStrainHessian
  computeDirectorRates2 := computeDirectorRates2
  computeDirectorRates3 := computeDirectorRates3
  addDirectorResidual := addDirectorResidual
  addDirectorJacobian := addDirectorJacobian
  addRotationConstraint := addRotationConstraint
  addRotationConstrJacobian := addRotationConstrJacobian
  computeTransform := fun Xxi n0 => id9
  evalStress := fun elemIndex pt X e =>
    TACSThermalShellElement.computeStress (shiftV CsVal 0) (shiftV CsVal 6)
      (shiftV CsVal 12) (shiftV CsVal 18) (CsVal 21) e
  evalTangentStiffness := fun elemIndex pt X => CsVal
  evalMassMoments := fun elemIndex pt X => vec3 2 1 3
  evalThermalStrain := fun elemIndex pt X t => fun i => t * ethc i
  evalHeatFlux := fun elemIndex pt X tx => vec3 (2 * tx 0 + tx 1) (tx 0 + 2 * tx 1) 0
  evalTangentHeatFlux := fun elemIndex pt X => vec3 2 1 2
  evalFailure := fun elemIndex pt X e => e 0
  evalDesignFieldValue := fun elemIndex pt X j => (j : ℚ)

end LinShell

namespace LinShellEval
open TACSThermalShellElement LinShell

set_option maxHeartbeats 2000000

theorem range_one : List.range 1 = [0] := rfl
theorem range_three : List.range 3 = [0, 1, 2] := rfl
theorem range_six : List.range 6 = [0, 1, 2, 3, 4, 5] := rfl

@[simp] theorem pol_numParams (e : Vec) : (pol e).numParams = 1 := rfl
@[simp] theorem pol_numNodes (e : Vec) : (pol e).numNodes = 2 := rfl
@[simp] theorem pol_numQuad (e : Vec) : (pol e).numQuad = 1 := rfl
@[simp] theorem pol_numVisNodes (e : Vec) : (pol e).numVisNodes = 2 := rfl
@[simp] theorem pol_numTying (e : Vec) : (pol e).numTyingPoints = 1 := rfl
@[simp] theorem pol_quadWeight (e : Vec) (q : ℕ) : (pol e).quadWeight q = 1 := rfl
@[simp] theorem pol_quadPoint (e : Vec) (q : ℕ) : (pol e).quadPoint q = LinShell.vec3 (1/2) 0 0 := rfl
@[simp] theorem pol_getNodePoint (e : Vec) : (pol e).getNodePoint = getNodePoint := rfl
@[simp] theorem pol_interpFields (e : Vec) : (pol e).interpFields = interpFields := rfl
@[simp] theorem pol_interpFieldsGrad (e : Vec) : (pol e).interpFieldsGrad = interpFieldsGrad := rfl
@[simp] theorem pol_aift (e : Vec) : (pol e).addInterpFieldsTranspose = addInterpFieldsTranspose := rfl
@[simp] theorem pol_aifgt (e : Vec) : (pol e).addInterpFieldsGradTranspose = addInterpFieldsGradTranspose := rfl
@[simp] theorem pol_aifop (e : Vec) : (pol e).addInterpFieldsOuterProduct = addInterpFieldsOuterProduct := rfl
@[simp] theorem pol_aigop (e : Vec) : (pol e).addInterpGradOuterProduct = addInterpGradOuterProduct := rfl
@[simp] theorem pol_interpTying (e : Vec) : (pol e).interpTyingStrain = interpTyingStrain := rfl
@[simp] theorem pol_aityt (e : Vec) : (pol e).addInterpTyingStrainTranspose = addInterpTyingStrainTranspose := rfl
@[simp] theorem pol_aityh (e : Vec) : (pol e).addInterpTyingStrainHessian = addInterpTyingStrainHessian := rfl
@[simp] theorem pol_cnn (e : Vec) : (pol e).computeNodeNormals = computeNodeNormals := rfl
@[simp] theorem pol_cds (e : Vec) : (pol e).computeDrillStrain = computeDrillStrain := rfl
@[simp] theorem pol_adss (e : Vec) : (pol e).addDrillStrainSens = addDrillStrainSens := rfl
@[simp] theorem pol_adsh (e : Vec) : (pol e).addDrillStrainHessian = addDrillStrainHessian := rfl
@[simp] theorem pol_cdg (e : Vec) : (pol e).computeDispGrad = computeDispGrad := rfl
@[simp] theorem pol_adgs (e : Vec) : (pol e).addDispGradSens = addDispGradSens := rfl
@[simp] theorem pol_adgh (e : Vec) : (pol e).addDispGradHessian = addDispGradHessian := rfl
@[simp] theorem pol_atdc (e : Vec) : (pol e).addTyingDispCoupling = addTyingDispCoupling := rfl
@[simp] theorem pol_stt (e : Vec) : (pol e).symTransformTranspose = mat3x3SymmTransformTranspose := rfl
@[simp] theorem pol_sts (e : Vec) : (pol e).symTransformTransSens = mat3x3SymmTransformTransSens := rfl
@[simp] theorem pol_sth (e : Vec) : (pol e).symTransformTransHessian = mat3x3SymmTransformTransHessian := rfl
@[simp] theorem pol_evalStrain (e : Vec) : (pol e).evalStrain = evalStrain := rfl
@[simp] theorem pol_evalStrainSens (e : Vec) : (pol e).evalStrainSens = evalStrainSens := rfl
@[simp] theorem pol_evalStrainHessian (e : Vec) : (pol e).evalStrainHessian = evalStrainHessian := rfl
@[simp] theorem pol_cts (e : Vec) : (pol e).computeTyingStrain = computeTyingStrain := rfl
@[simp] theorem pol_actst (e : Vec) : (pol e).addComputeTyingStrainTranspose = addComputeTyingStrainTranspose := rfl
@[simp] theorem pol_actsh (e : Vec) : (pol e).addComputeTyingStrainHessian = addComputeTyingStrainHessian := rfl
@[simp] theorem pol_cdr2 (e : Vec) : (pol e).computeDirectorRates2 = computeDirectorRates2 := rfl
@[simp] theorem pol_cdr3 (e : Vec) : (pol e).computeDirectorRates3 = computeDirectorRates3 := rfl
@[simp] theorem pol_adr (e : Vec) : (pol e).addDirectorResidual = addDirectorResidual := rfl
@[simp] theorem pol_adj (e : Vec) : (pol e).addDirectorJacobian = addDirectorJacobian := rfl
@[simp] theorem pol_arc (e : Vec) : (pol e).addRotationConstraint = addRotationConstraint := rfl
@[simp] theorem pol_arcj (e : Vec) : (pol e).addRotationConstrJacobian = addRotationConstrJacobian := rfl
@[simp] theorem pol_ct (e : Vec) (Xxi n0 : Vec) : (pol e).computeTransform Xxi n0 = id9 := rfl
@[simp] theorem pol_evalStress (e : Vec) (ei : ℕ) (pt X s : Vec) :
    (pol e).evalStress ei pt X s
      = computeStress (shiftV CsVal 0) (shiftV CsVal 6) (shiftV CsVal 12) (shiftV CsVal 18) (CsVal 21) s := rfl
@[simp] theorem pol_evalTangentStiffness (e : Vec) (ei : ℕ) (pt X : Vec) :
    (pol e).evalTangentStiffness ei pt X = CsVal := rfl
@[simp] theorem pol_evalMassMoments (e : Vec) (ei : ℕ) (pt X : Vec) :
    (pol e).evalMassMoments ei pt X = LinShell.vec3 2 1 3 := rfl
@[simp] theorem pol_evalThermalStrain (e : Vec) (ei : ℕ) (pt X : Vec) (t : ℚ) :
    (pol e).evalThermalStrain ei pt X t = fun i => t * e i := rfl
@[simp] theorem pol_evalHeatFlux (e : Vec) (ei : ℕ) (pt X tx : Vec) :
    (pol e).evalHeatFlux ei pt X tx = LinShell.vec3 (2 * tx 0 + tx 1) (tx 0 + 2 * tx 1) 0 := rfl
@[simp] theorem pol_evalTangentHeatFlux (e : Vec) (ei : ℕ) (pt X : Vec) :
    (pol e).evalTangentHeatFlux ei pt X = LinShell.vec3 2 1 2 := rfl
@[simp] theorem pol_evalFailure (e : Vec) (ei : ℕ) (pt X s : Vec) :
    (pol e).evalFailure ei pt X s = s 0 := rfl
@[simp] theorem pol_evalDesignFieldValue (e : Vec) (ei : ℕ) (pt X : Vec) (j : ℕ) :
    (pol e).evalDesignFieldValue ei pt X j = (j : ℚ) := rfl

theorem symTT_id (g : Vec) : mat3x3SymmTransformTranspose id9 g
    = fun c => if c < 6 then g c else 0 := by
  funext c
  by_cases hc : c < 6
  · interval_cases c <;>
      norm_num [mat3x3SymmTransformTranspose, symCongruenceEntry, symRow, symCol,
        symIdx, id9, sumQ, range_three]
  · simp [mat3x3SymmTransformTranspose, hc]

theorem symTS_id1 (dg : Vec) : mat3x3SymmTransformTransSens id9 dg 1 = dg 1 := by
  norm_num [mat3x3SymmTransformTransSens, symCongCoef, symRow, symCol, id9, sumQ, range_six]

theorem symTH_id7 (d2 : Vec) : mat3x3SymmTransformTransHessian id9 d2 7 = d2 7 := by
  norm_num [mat3x3SymmTransformTransHessian, symCongCoef, symRow, symCol, id9, sumQ, range_six]

/-- The concrete point frame at any parametric point, with the transform,
displacement gradient, tying transform and strain collapsed. -/
theorem pointFrame_eval (ethc X v fn etn d ety pt : Vec) :
    pointFrame (pol ethc) X v fn etn d ety pt =
      ⟨pt, LinShell.interpFields 3 3 pt X, LinShell.interpFieldsGrad 3 3 pt X,
       LinShell.interpFields 3 3 pt fn, LinShell.interpFields 1 1 pt etn 0, id9,
       ⟨1, id9, zeroV,
        fun idx => if idx % 3 = 0 then v (5 + idx / 3) - v (idx / 3) else 0,
        fun idx => if idx % 3 = 0 then d (3 + idx / 3) - d (idx / 3) else 0⟩,
       LinShell.interpTyingStrain pt ety,
       fun c => if c < 6 then LinShell.interpTyingStrain pt ety c else 0,
       Function.update
         (fun i => if i = 0 then v 5 - v 0 else if i = 3 then d 3 - d 0
                   else if i = 6 then ety 0 else 0) 8
         (LinShell.interpFields 1 1 pt etn 0)⟩ := by
  simp only [pointFrame, pol_interpFields, pol_interpFieldsGrad, pol_interpTying,
    pol_ct, pol_cdg, pol_stt, pol_evalStrain, computeDispGrad, symTT_id]
  congr 1

/-- The concrete thermal block at any point frame. -/
theorem thermalPoint_eval (ethc : Vec) (ei : ℕ) (v : Vec) (f : PointFrame) :
    thermalPoint (pol ethc) ei v f =
      ⟨(1 - f.pt 0) * v 3 + f.pt 0 * v 8,
       fun i => ((1 - f.pt 0) * v 3 + f.pt 0 * v 8) * ethc i,
       fun i => f.e i - ((1 - f.pt 0) * v 3 + f.pt 0 * v 8) * ethc i⟩ := by
  simp only [thermalPoint, pol_interpFields, pol_evalThermalStrain, vars_per_node,
    TACSThermalShellElement.offset, pol_numParams, LinShell.interpFields, shiftV]

/-- The strain-model Hessian blocks of the concrete element: the four
stiffness numbers at scale `alpha`, with no cross coupling. -/
theorem jacPointHessian_eval (ethc : Vec) (ei : ℕ) (alpha : ℚ) (X v fn etn d ety : Vec) (q : ℕ) :
    jacPointHessian (pol ethc) ei alpha X v fn etn d ety q =
      ⟨fun a => if a = 0 then alpha * 4 else 0,
       fun a => if a = 0 then alpha * 2 else 0,
       fun a => if a = 0 then alpha * 1 else 0,
       fun a => if a = 7 then alpha * 3 else 0,
       zeroV, zeroV⟩ := by
  simp only [jacPointHessian, pol_quadPoint, pol_quadWeight, pol_evalTangentStiffness,
    pol_evalStrainHessian, pointFrame_eval, evalStrainHessian, CsVal]
  norm_num

/-- Conduction-tangent entries at unit `alpha`. -/
def CondTab : Vec := fun idx =>
  if idx = 33 then 2 else if idx = 38 then -2 else if idx = 83 then -2 else if idx = 88 then 2 else 0

/-- Displacement-gradient Hessian matrix entries at unit `alpha`. -/
def DispMatTab : Vec := fun idx =>
  if idx = 0 then 4 else if idx = 5 then -4 else if idx = 50 then -4 else if idx = 55 then 4 else 0

/-- Director-director block entries at unit `alpha` (6-stride layout). -/
def D2dTab : Vec := fun idx =>
  if idx = 0 then 2 else if idx = 3 then -2 else if idx = 18 then -2 else if idx = 21 then 2 else 0

/-- Director-displacement block entries at unit `alpha` (6-stride layout). -/
def D2duTab : Vec := fun idx =>
  if idx = 0 then 1 else if idx = 3 then -1 else if idx = 18 then -1 else if idx = 21 then 1 else 0

/-- Translational mass block entries at unit `gamma`. -/
def MassTab : Vec := fun idx =>
  if idx = 0 ∨ idx = 5 ∨ idx = 11 ∨ idx = 16 ∨ idx = 22 ∨ idx = 27 then 1/2
  else if idx = 50 ∨ idx = 55 ∨ idx = 61 ∨ idx = 66 ∨ idx = 72 ∨ idx = 77 then 1/2
  else 0

/-- Rotational-inertia block entries (6-stride layout). -/
def TdTab : Vec := fun idx =>
  if idx = 0 ∨ idx = 3 ∨ idx = 7 ∨ idx = 10 ∨ idx = 14 ∨ idx = 17 then 3/4
  else if idx = 18 ∨ idx = 21 ∨ idx = 25 ∨ idx = 28 ∨ idx = 32 ∨ idx = 35 then 3/4
  else 0

/-- Coupled-inertia block entries (6-stride layout). -/
def TuTab : Vec := fun idx =>
  if idx = 0 ∨ idx = 3 ∨ idx = 7 ∨ idx = 10 ∨ idx = 14 ∨ idx = 17 then 1/4
  else if idx = 18 ∨ idx = 21 ∨ idx = 25 ∨ idx = 28 ∨ idx = 32 ∨ idx = 35 then 1/4
  else 0

theorem matConductionInc_eval (ethc : Vec) (ei : ℕ) (alpha : ℚ) (X v fn etn d ety : Vec)
    (q idx : ℕ) (h : idx < 100) :
    matConductionInc (pol ethc) ei alpha X v fn etn d ety q idx = alpha * CondTab idx := by
  simp only [matConductionInc, pol_quadPoint, pol_quadWeight, pol_evalTangentHeatFlux,
    pol_aigop, pol_numParams, pointFrame_eval, vars_per_node,
    TACSThermalShellElement.offset, size, pol_numNodes, addShiftV, zeroV, CondTab,
    LinShell.vec3, TACSThermalShellElement.vec3, addInterpGradOuterProduct, id9, dshapeN]
  interval_cases idx <;> norm_num <;> ring

theorem dispHessInc_mat (ethc : Vec) (ei : ℕ) (alpha : ℚ) (X v fn etn d ety : Vec)
    (q idx : ℕ) (h : idx < 100) :
    (dispHessInc (pol ethc) ei alpha X v fn etn d ety q).1 idx = alpha * DispMatTab idx := by
  simp only [dispHessInc, pol_adgh, pointFrame_eval, jacPointHessian_eval, addDispGradHessian,
    sumQ, range_three, List.map_cons, List.map_nil, List.sum_cons, List.sum_nil,
    uCoef, DispMatTab]
  interval_cases idx <;> norm_num <;> ring

theorem dispHessInc_d2d (ethc : Vec) (ei : ℕ) (alpha : ℚ) (X v fn etn d ety : Vec)
    (q p : ℕ) (h : p < 36) :
    (dispHessInc (pol ethc) ei alpha X v fn etn d ety q).2.1 p = alpha * D2dTab p := by
  simp only [dispHessInc, pol_adgh, pointFrame_eval, jacPointHessian_eval, addDispGradHessian,
    sumQ, range_three, List.map_cons, List.map_nil, List.sum_cons, List.sum_nil,
    pmCoef, D2dTab]
  interval_cases p <;> norm_num <;> ring

theorem dispHessInc_d2du (ethc : Vec) (ei : ℕ) (alpha : ℚ) (X v fn etn d ety : Vec)
    (q p : ℕ) (h : p < 36) :
    (dispHessInc (pol ethc) ei alpha X v fn etn d ety q).2.2 p = alpha * D2duTab p := by
  simp only [dispHessInc, pol_adgh, pointFrame_eval, jacPointHessian_eval, addDispGradHessian,
    sumQ, range_three, List.map_cons, List.map_nil, List.sum_cons, List.sum_nil,
    pmCoef, D2duTab]
  interval_cases p <;> norm_num <;> ring

theorem matMassInc_eval (ethc : Vec) (ei : ℕ) (gamma : ℚ) (X v fn etn d ety : Vec)
    (q idx : ℕ) (h : idx < 100) :
    matMassInc (pol ethc) ei gamma X v fn etn d ety q idx = gamma * MassTab idx := by
  simp only [matMassInc, pol_quadPoint, pol_quadWeight, pol_evalMassMoments, pol_aifop,
    pol_numParams, pol_numNodes, pointFrame_eval, vars_per_node,
    TACSThermalShellElement.offset, LinShell.vec3, TACSThermalShellElement.vec3,
    addInterpFieldsOuterProduct, shapeN, MassTab]
  interval_cases idx <;> norm_num <;> ring

theorem d2etnInc_eval (ethc : Vec) (ei : ℕ) (alpha : ℚ) (X v fn etn d ety : Vec)
    (q p : ℕ) (h : p < 4) :
    d2etnInc (pol ethc) ei alpha X v fn etn d ety q p = alpha * (5/4) := by
  simp only [d2etnInc, pol_quadPoint, pol_quadWeight, pol_evalTangentStiffness, pol_aifop,
    pointFrame_eval, LinShell.vec3, TACSThermalShellElement.vec3,
    addInterpFieldsOuterProduct, shapeN, CsVal]
  interval_cases p <;> norm_num <;> ring

theorem d2etyInc_eval (ethc : Vec) (ei : ℕ) (alpha : ℚ) (X v fn etn d ety : Vec) (q : ℕ) :
    d2etyInc (pol ethc) ei alpha X v fn etn d ety q 0 = alpha * 3 := by
  simp only [d2etyInc, pol_aityh, pol_sth, pointFrame_eval, jacPointHessian_eval,
    addInterpTyingStrainHessian, symTH_id7]
  norm_num

theorem d2TdotdInc_eval (ethc : Vec) (ei : ℕ) (X v fn etn d ety : Vec)
    (q p : ℕ) (h : p < 36) :
    d2TdotdInc (pol ethc) ei X v fn etn d ety q p = TdTab p := by
  simp only [d2TdotdInc, pol_quadPoint, pol_quadWeight, pol_evalMassMoments, pol_aifop,
    pointFrame_eval, LinShell.vec3, TACSThermalShellElement.vec3,
    addInterpFieldsOuterProduct, shapeN, TdTab]
  interval_cases p <;> norm_num

theorem d2TdotuInc_eval (ethc : Vec) (ei : ℕ) (X v fn etn d ety : Vec)
    (q p : ℕ) (h : p < 36) :
    d2TdotuInc (pol ethc) ei X v fn etn d ety q p = TuTab p := by
  simp only [d2TdotuInc, pol_quadPoint, pol_quadWeight, pol_evalMassMoments, pol_aifop,
    pointFrame_eval, LinShell.vec3, TACSThermalShellElement.vec3,
    addInterpFieldsOuterProduct, shapeN, TuTab]
  interval_cases p <;> norm_num

theorem tyingCouplingInc_eval (ethc : Vec) (ei : ℕ) (alpha : ℚ) (X v fn etn d ety : Vec) (q : ℕ) :
    tyingCouplingInc (pol ethc) ei alpha X v fn etn d ety q = (zeroV, zeroV) := by
  simp only [tyingCouplingInc, pol_atdc, pointFrame_eval, jacPointHessian_eval,
    addTyingDispCoupling, zeroV, sumQ, range_three, List.map_cons, List.map_nil,
    List.sum_cons, List.sum_nil]
  norm_num
  constructor <;> funext p <;> norm_num

theorem sumV_one (f : ℕ → Vec) (i : ℕ) : sumV (List.range 1) f i = f 0 i := by
  simp [sumV, range_one]

@[simp] theorem uMap_zero (i : ℕ) : uMap i zeroV = 0 := by
  simp [uMap, zeroV]
/-- The stiffness generator of the concrete element matrix (entries of the assembly at alpha = 1, beta = gamma = 0). -/
def Ktab : Vec := fun idx =>
  if idx = 0 then 4
  else if idx = 4 then 1
  else if idx = 5 then -4
  else if idx = 9 then -1
  else if idx = 11 then 5
  else if idx = 14 then 5/2
  else if idx = 16 then -5
  else if idx = 19 then 5/2
  else if idx = 22 then 3
  else if idx = 24 then -3/2
  else if idx = 27 then -3
  else if idx = 29 then -3/2
  else if idx = 33 then 2
  else if idx = 38 then -2
  else if idx = 40 then 1
  else if idx = 41 then 5/2
  else if idx = 42 then -3/2
  else if idx = 44 then 4
  else if idx = 45 then -1
  else if idx = 46 then -5/2
  else if idx = 47 then 3/2
  else if idx = 50 then -4
  else if idx = 54 then -1
  else if idx = 55 then 4
  else if idx = 59 then 1
  else if idx = 61 then -5
  else if idx = 64 then -5/2
  else if idx = 66 then 5
  else if idx = 69 then -5/2
  else if idx = 72 then -3
  else if idx = 74 then 3/2
  else if idx = 77 then 3
  else if idx = 79 then 3/2
  else if idx = 83 then -2
  else if idx = 88 then 2
  else if idx = 90 then -1
  else if idx = 91 then 5/2
  else if idx = 92 then -3/2
  else if idx = 95 then 1
  else if idx = 96 then -5/2
  else if idx = 97 then 3/2
  else if idx = 99 then 4
  else 0

/-- The mass generator of the concrete element matrix (entries of the assembly at gamma = 1, alpha = beta = 0). -/
def Mtab : Vec := fun idx =>
  if idx = 0 then 1/2
  else if idx = 4 then 1/4
  else if idx = 5 then 1/2
  else if idx = 9 then 1/4
  else if idx = 11 then 1/2
  else if idx = 16 then 1/2
  else if idx = 22 then 1/2
  else if idx = 27 then 1/2
  else if idx = 40 then 1/4
  else if idx = 44 then 3/4
  else if idx = 45 then 1/4
  else if idx = 49 then 3/4
  else if idx = 50 then 1/2
  else if idx = 54 then 1/4
  else if idx = 55 then 1/2
  else if idx = 59 then 1/4
  else if idx = 61 then 1/2
  else if idx = 66 then 1/2
  else if idx = 72 then 1/2
  else if idx = 77 then 1/2
  else if idx = 90 then 1/4
  else if idx = 94 then 3/4
  else if idx = 95 then 1/4
  else if idx = 99 then 3/4
  else 0

theorem jacMatEntry (ethc : Vec) (ei : ℕ) (t alpha beta gamma : ℚ) (X v dv ddv r0 m0 : Vec)
    (idx : ℕ) (h : idx < 100) :
    (addJacobian (pol ethc) ei t alpha beta gamma X v dv ddv r0 m0).2 idx
      = m0 idx + alpha * Ktab idx + gamma * Mtab idx := by
  simp only [addJacobian, pol_numQuad, pol_cnn, pol_cds, pol_cdr3, pol_cts, pol_adsh, pol_actsh,
    pol_adj, pol_arcj, h, sumV_one, addV, zeroV,
    matConductionInc_eval, dispHessInc_mat, dispHessInc_d2d, matMassInc_eval,
    d2etnInc_eval, d2etyInc_eval, d2TdotdInc_eval, d2TdotuInc_eval, tyingCouplingInc_eval,
    addDrillStrainHessian, addDrillStrainSens, addComputeTyingStrainHessian,
    addDirectorJacobian, addRotationConstrJacobian, uMap_zero, Nat.reduceLT, Nat.reduceDiv,
    Nat.reduceMod, decide_True, decide_False]
  interval_cases idx <;>
    norm_num [sumV_one, matConductionInc_eval, dispHessInc_mat, dispHessInc_d2d,
      matMassInc_eval, d2etnInc_eval, d2etyInc_eval, d2TdotdInc_eval, d2TdotuInc_eval,
      tyingCouplingInc_eval, drillGrad, tyu, tyu3, tyd, uMap, isU, uOf, dispHessInc_d2du,
      D2duTab, TuTab, Ktab, Mtab, CondTab, DispMatTab, MassTab, D2dTab, TdTab, zeroV] <;>
    try ring

theorem range_ten : List.range 10 = [0, 1, 2, 3, 4, 5, 6, 7, 8, 9] := rfl

theorem resEntry (ei : ℕ) (t : ℚ) (X v dv ddv r0 : Vec) (i : ℕ) (h : i < 10) :
    addResidual (pol zeroV) ei t X v dv ddv r0 i
      = r0 i + sumQ (List.range 10) (fun j => Ktab (10 * i + j) * v j)
          + sumQ (List.range 10) (fun j => Mtab (10 * i + j) * ddv j) := by
  simp only [addResidual, pol_numQuad, pol_numParams, pol_cnn, pol_cds, pol_cdr3, pol_cts,
    pol_adss, pol_actst, pol_adr, pol_arc, pol_aift, pol_aifgt, pol_interpFields,
    pol_interpFieldsGrad, pol_aityt, pol_sts, pol_evalStrainSens, pol_adgs,
    pol_evalStress, pol_evalMassMoments, pol_evalHeatFlux, pol_quadPoint, pol_quadWeight,
    sumV_one, addV, zeroV, vars_per_node, TACSThermalShellElement.offset,
    pointFrame_eval, thermalPoint_eval, heatFluxGrad,
    computeNodeNormals, computeDrillStrain, computeDirectorRates3, computeTyingStrain,
    etnOf, dirMap, drillGrad, computeStress, extractTangentStiffness, shiftV, CsVal,
    evalStrainSens, addDispGradSens, addDrillStrainSens, addComputeTyingStrainTranspose,
    addDirectorResidual, addRotationConstraint, addInterpFieldsTranspose,
    addInterpFieldsGradTranspose, addInterpTyingStrainTranspose, symTS_id1,
    LinShell.interpFields, LinShell.interpFieldsGrad, interpTyingStrain,
    LinShell.vec3, TACSThermalShellElement.vec3, id9, shapeN, dshapeN,
    Function.update_apply,
    Nat.reduceMod, Nat.reduceDiv, Nat.reduceAdd, Nat.reduceSub, Nat.reduceMul,
    Nat.reduceLT, Nat.reduceLeDiff, reduceIte, Nat.reduceEqDiff, decide_True, decide_False]
  interval_cases i <;>
    norm_num [sumQ, range_ten, Ktab, Mtab, addShiftV, zeroV, addInterpFieldsGradTranspose,
      LinShell.vec3, TACSThermalShellElement.vec3, dshapeN] <;> ring

theorem Ue_eval (ei : ℕ) (t : ℚ) (X v : Vec) :
    (computeEnergies (pol zeroV) ei t X v zeroV).2
      = (1/2) * (4 * (v 5 - v 0)^2 + 2 * (v 5 - v 0) * (v 9 - v 4) + 2 * (v 9 - v 4)^2
        + 3 * ((v 7 - v 2) + (1/2) * (v 4 + v 9))^2
        + 5 * ((1/2) * (v 4 + v 9) - (v 6 - v 1))^2) := by
  simp only [computeEnergies, pol_numQuad, pol_numParams, pol_cnn, pol_cds, pol_cdr2, pol_cts,
    pol_interpFields, pol_evalStress, pol_evalMassMoments, pol_quadPoint, pol_quadWeight,
    sumQ, range_one, List.map_cons, List.map_nil, List.sum_cons, List.sum_nil,
    vars_per_node, TACSThermalShellElement.offset,
    pointFrame_eval, computeNodeNormals, computeDrillStrain, computeDirectorRates2,
    computeTyingStrain, etnOf, dirMap, computeStress, extractTangentStiffness, shiftV, CsVal,
    LinShell.interpFields, interpTyingStrain, LinShell.vec3, TACSThermalShellElement.vec3,
    id9, zeroV, vec3Dot, Function.update_apply,
    Nat.reduceMod, Nat.reduceDiv, Nat.reduceAdd, Nat.reduceSub, Nat.reduceMul,
    Nat.reduceLT, Nat.reduceLeDiff, reduceIte, Nat.reduceEqDiff, decide_True, decide_False]
  norm_num
  ring

theorem Te_eval (ei : ℕ) (t : ℚ) (X v : Vec) :
    (computeEnergies (pol zeroV) ei t X v zeroV).1 = 0 := by
  simp only [computeEnergies, pol_numQuad, pol_numParams, pol_cnn, pol_cds, pol_cdr2, pol_cts,
    pol_interpFields, pol_evalMassMoments, pol_quadPoint, pol_quadWeight,
    sumQ, range_one, List.map_cons, List.map_nil, List.sum_cons, List.sum_nil,
    vars_per_node, TACSThermalShellElement.offset,
    pointFrame_eval, computeNodeNormals, computeDrillStrain, computeDirectorRates2,
    computeTyingStrain, etnOf, dirMap, shiftV,
    LinShell.interpFields, LinShell.vec3, TACSThermalShellElement.vec3, id9, zeroV, vec3Dot,
    Nat.reduceMod, Nat.reduceDiv, Nat.reduceAdd, Nat.reduceMul, reduceIte]
  norm_num


/-- The thermal-force generator of the concrete instance with thermal
coefficients: the residual of `pol thermalCoef` is the zero-thermal residual
minus the interpolated temperature times this table. -/
def ThTab : Vec := fun i =>
  if i = 0 then -9/2 else if i = 5 then 9/2
  else if i = 1 then 5/3 else if i = 6 then -5/3
  else if i = 2 then -3/4 else if i = 7 then 3/4
  else if i = 4 then -19/24 else if i = 9 then 77/24
  else 0

theorem resEntryTh (ei : ℕ) (t : ℚ) (X v dv ddv r0 : Vec) (i : ℕ) (h : i < 10) :
    addResidual (pol thermalCoef) ei t X v dv ddv r0 i
      = r0 i + sumQ (List.range 10) (fun j => Ktab (10 * i + j) * v j)
          + sumQ (List.range 10) (fun j => Mtab (10 * i + j) * ddv j)
          - ((v 3 + v 8) / 2) * ThTab i := by
  simp only [addResidual, pol_numQuad, pol_numParams, pol_cnn, pol_cds, pol_cdr3, pol_cts,
    pol_adss, pol_actst, pol_adr, pol_arc, pol_aift, pol_aifgt, pol_interpFields,
    pol_interpFieldsGrad, pol_aityt, pol_sts, pol_evalStrainSens, pol_adgs,
    pol_evalStress, pol_evalMassMoments, pol_evalHeatFlux, pol_quadPoint, pol_quadWeight,
    sumV_one, addV, zeroV, thermalCoef, vars_per_node, TACSThermalShellElement.offset,
    pointFrame_eval, thermalPoint_eval, heatFluxGrad,
    computeNodeNormals, computeDrillStrain, computeDirectorRates3, computeTyingStrain,
    etnOf, dirMap, drillGrad, computeStress, extractTangentStiffness, shiftV, CsVal,
    evalStrainSens, addDispGradSens, addDrillStrainSens, addComputeTyingStrainTranspose,
    addDirectorResidual, addRotationConstraint, addInterpFieldsTranspose,
    addInterpFieldsGradTranspose, addInterpTyingStrainTranspose, symTS_id1,
    LinShell.interpFields, LinShell.interpFieldsGrad, interpTyingStrain,
    LinShell.vec3, TACSThermalShellElement.vec3, id9, shapeN, dshapeN,
    Function.update_apply,
    Nat.reduceMod, Nat.reduceDiv, Nat.reduceAdd, Nat.reduceSub, Nat.reduceMul,
    Nat.reduceLT, Nat.reduceLeDiff, reduceIte, Nat.reduceEqDiff, decide_True, decide_False]
  interval_cases i <;>
    norm_num [sumQ, range_ten, Ktab, Mtab, ThTab, thermalCoef, addShiftV, zeroV,
      addInterpFieldsGradTranspose, LinShell.vec3, TACSThermalShellElement.vec3, dshapeN] <;>
    ring

end LinShellEval

/-!
## Claim-level notions

A discrete derivative notion for the polynomial maps of this file, the two
spec properties built from it, and helper descriptions of the output-buffer
writes of `getOutputData`.
-/

/-- `g` is the partial derivative of `f` at `v` in coordinate `i`: moving the
`i`-th coordinate by `h` changes `f` by `h*g` up to an `h^2` remainder whose
coefficient does not depend on `h`.  For the polynomial maps of this file
this is exact and pins `g` down uniquely. -/
def IsPartialDeriv (f : Vec → ℚ) (i : ℕ) (v : Vec) (g : ℚ) : Prop :=
  ∃ c : ℚ, ∀ h : ℚ, f (Function.update v i (v i + h)) = f v + h * g + h ^ 2 * c

/-- Concatenation of the lists `f n` over a list of indices, in order (the
values written by a loop that appends one block per index). -/
def concatMap (f : ℕ → List ℚ) : List ℕ → List ℚ
  | [] => []
  | n :: rest => f n ++ concatMap f rest

namespace TACSThermalShellElement

/-- The property claim C1 asserts of an element instance: every entry of the
residual accumulated by `addResidual` (into a zero buffer) is the partial
derivative of the energy difference of `computeEnergies` — potential minus
kinetic, the fixed sign convention under which a static mechanical residual
can match the energy gradient — with respect to the matching state
variable, at every state. -/
def ResidualIsEnergyGradient (P : ShellPolicies) (elemIndex : ℕ) (time : ℚ)
    (Xpts dvars ddvars : Vec) : Prop :=
  ∀ vars : Vec, ∀ i : ℕ, i < size P →
    IsPartialDeriv
      (fun w => (computeEnergies P elemIndex time Xpts w dvars).2
        - (computeEnergies P elemIndex time Xpts w dvars).1)
      i vars (addResidual P elemIndex time Xpts vars dvars ddvars zeroV i)

/-- The property claim C2 asserts of an element instance: every entry of the
matrix assembled by `addJacobian` with `alpha = 1`, `beta = gamma = 0` is the
partial derivative of the matching `addResidual` entry with respect to the
matching state variable, at every state. -/
def JacobianMatchesStateDerivative (P : ShellPolicies) (elemIndex : ℕ) (time : ℚ)
    (Xpts dvars ddvars : Vec) : Prop :=
  ∀ vars : Vec, ∀ i j : ℕ, i < size P → j < size P →
    IsPartialDeriv (fun w => addResidual P elemIndex time Xpts w dvars ddvars zeroV i)
      j vars
      ((addJacobian P elemIndex time 1 0 0 Xpts vars dvars ddvars zeroV zeroV).2
        (size P * i + j))

/-- The values `getOutputData` writes for one visualization node: the
node-level preparation of `getOutputData` followed by `nodeSegments`. -/
def getOutputSegments (P : ShellPolicies) (flags : OutputFlags) (elemIndex : ℕ)
    (Xpts vars dvars : Vec) (index : ℕ) : List ℚ :=
  let nn := P.computeNodeNormals Xpts
  let fn := nn.1
  let Xdn := nn.2
  let drill := P.computeDrillStrain Xdn fn vars
  let etn := drill.2.2.2.2
  let dr := P.computeDirectorRates2 vars dvars fn
  let d := dr.1
  let ety := P.computeTyingStrain Xpts fn vars d
  nodeSegments P flags elemIndex Xpts vars fn etn d ety index

/-- A fold whose step ignores the index and returns its state unchanged. -/
theorem foldl_const {α : Type} (l : List ℕ) (st : α) :
    l.foldl (fun s _ => s) st = st := by
  induction l generalizing st with
  | nil => rfl
  | cons a tl ih => rw [List.foldl_cons]; exact ih st

/-- Sequential writes of a concatenation: write the first block, then the
second starting where the first ended. -/
theorem writeVals_append (a b : List ℚ) : ∀ (buf : Vec) (p : ℕ),
    writeVals buf p (a ++ b) = writeVals (writeVals buf p a) (p + a.length) b := by
  induction a with
  | nil => intro buf p; simp [writeVals]
  | cons x tl ih =>
    intro buf p
    show writeVals (Function.update buf p x) (p + 1) (tl ++ b)
        = writeVals (writeVals (Function.update buf p x) (p + 1) tl) (p + (tl.length + 1)) b
    rw [ih, (by omega : p + 1 + tl.length = p + (tl.length + 1))]

/-- The pointer-advancing write loop of `getOutputData`, as one write of the
concatenated per-index blocks. -/
theorem foldl_writeSegs (segs : ℕ → List ℚ) (l : List ℕ) :
    ∀ (p : ℕ) (buf : Vec),
    l.foldl (fun st index => (st.1 + (segs index).length, writeVals st.2 st.1 (segs index)))
        (p, buf)
      = (p + (l.map (fun n => (segs n).length)).sum, writeVals buf p (concatMap segs l)) := by
  induction l with
  | nil => intro p buf; simp [concatMap, writeVals]
  | cons a tl ih =>
    intro p buf
    simp only [List.foldl_cons]
    rw [ih, concatMap, writeVals_append]
    simp only [List.map_cons, List.sum_cons, Prod.mk.injEq, and_true]
    omega

end TACSThermalShellElement

namespace TACSAverageTemperature

/-- The quadrature loop of `elementWiseEval` adds the guarded
`detJ*weight` and `detJ*weight*temp` sums of the visited points to the two
accumulators. -/
theorem foldl_points (e : ElemModel) (l : List ℕ) (s : FuncState) :
    l.foldl (fun s i => pointContribution e i s) s
      = ⟨s.volume
          + (l.map (fun i => if 1 ≤ e.quantityCount i then e.detJ i * e.quadWeight i else 0)).sum,
         s.integral_temp
          + (l.map (fun i => if 1 ≤ e.quantityCount i then
              e.detJ i * e.quadWeight i * e.quantityValue i else 0)).sum⟩ := by
  induction l generalizing s with
  | nil => simp
  | cons a tl ih =>
    rw [List.foldl_cons, ih]
    simp only [pointContribution, List.map_cons, List.sum_cons]
    split_ifs with hc <;> simp only [FuncState.mk.injEq] <;> constructor <;> ring

/-- One element's visit moves each accumulator up by that element's total
contribution. -/
theorem elementWiseEval_eq (e : ElemModel) (s : FuncState) :
    elementWiseEval e s = ⟨s.volume + elemVolume e, s.integral_temp + elemIntegral e⟩ := by
  unfold elementWiseEval elemVolume elemIntegral sumQ
  cases hb : e.hasBasis
  · simp
  · simp [foldl_points]

/-- The element loop accumulates the per-element volumes and integrals. -/
theorem foldl_elems (l : List ElemModel) (s : FuncState) :
    l.foldl (fun s e => elementWiseEval e s) s
      = ⟨s.volume + (l.map elemVolume).sum, s.integral_temp + (l.map elemIntegral).sum⟩ := by
  induction l generalizing s with
  | nil => simp
  | cons a tl ih =>
    rw [List.foldl_cons, elementWiseEval_eq, ih]
    simp only [List.map_cons, List.sum_cons, FuncState.mk.injEq]
    constructor <;> ring

/-- One partition's state: the sums of its elements' volumes and integrals. -/
theorem partitionEval_eq (l : List ElemModel) :
    partitionEval l = ⟨(l.map elemVolume).sum, (l.map elemIntegral).sum⟩ := by
  unfold partitionEval initEvaluation
  rw [foldl_elems]
  simp

/-- The whole evaluation: the grand totals of volume and temperature
integral over all partitions and elements. -/
theorem evaluate_eq (parts : List (List ElemModel)) :
    evaluate parts
      = ⟨(parts.map (fun els => (els.map elemVolume).sum)).sum,
         (parts.map (fun els => (els.map elemIntegral).sum)).sum⟩ := by
  unfold evaluate finalEvaluation
  rw [List.map_map, List.map_map,
    (funext fun els => by simp [Function.comp, partitionEval_eq] :
      FuncState.volume ∘ partitionEval = fun els => (List.map elemVolume els).sum),
    (funext fun els => by simp [Function.comp, partitionEval_eq] :
      FuncState.integral_temp ∘ partitionEval = fun els => (List.map elemIntegral els).sum)]

/-- An element none of whose quadrature points contributes has zero total
volume. -/
theorem elemVolume_zero (e : ElemModel)
    (he : e.hasBasis = false ∨ ∀ i, e.quantityCount i < 1) :
    elemVolume e = 0 := by
  unfold elemVolume sumQ
  rcases he with hb | hc
  · simp [hb]
  · cases hb : e.hasBasis
    · simp
    · simp only [if_true]
      apply List.sum_eq_zero
      intro x hx
      simp only [List.mem_map] at hx
      obtain ⟨i, _, rfl⟩ := hx
      simp [not_le.mpr (hc i)]

/-- A concrete element for the divisor witness: it has a basis and one
quadrature point, but reports quantity count 0 for the temperature. -/
def cElem : ElemModel :=
  ⟨true, 1, fun _ => 1, fun _ => 0, fun _ => 5, fun _ => 1, 2, 10⟩

end TACSAverageTemperature

namespace LinShellEval
open TACSThermalShellElement LinShell

/-- The concrete instance has 10 unknowns. -/
theorem size_pol (e : Vec) : size (pol e) = 10 := rfl

/-- The stiffness generator is a symmetric matrix. -/
theorem Ktab_symm (i j : Fin 10) : Ktab (10 * (i : ℕ) + j) = Ktab (10 * (j : ℕ) + i) := by
  fin_cases i <;> fin_cases j <;> rfl

/-- The mass generator is a symmetric matrix. -/
theorem Mtab_symm (i j : Fin 10) : Mtab (10 * (i : ℕ) + j) = Mtab (10 * (j : ℕ) + i) := by
  fin_cases i <;> fin_cases j <;> rfl

/-- The state used by the C1 counterexample: a pure temperature perturbation
at node 0. -/
def cv3 : Vec := fun i => if i = 3 then 1 else 0

end LinShellEval

/-!
## The claims
-/

namespace Claims
open TACSAverageTemperature TACSThermalShellElement LinShell LinShellEval

set_option maxHeartbeats 2000000

/-- C1 is false as stated: at the concrete instance with zero thermal
strain, row 3 of the residual (a temperature row) carries the conduction
contribution `2*v3 - 2*v8`, while the energies of `computeEnergies` do not
depend on the temperature variable `v3` at all, so the residual cannot be
the energy gradient there. -/
theorem C1_counterexample :
    ¬ ResidualIsEnergyGradient (pol zeroV) 0 0 zeroV zeroV zeroV := by
  intro hp
  obtain ⟨c, hc⟩ := hp cv3 3 (by norm_num [size_pol])
  have hres : addResidual (pol zeroV) 0 0 zeroV cv3 zeroV zeroV zeroV 3 = 2 := by
    rw [resEntry 0 0 zeroV cv3 zeroV zeroV zeroV 3 (by norm_num)]
    norm_num [sumQ, range_ten, Ktab, Mtab, cv3, zeroV]
  have h1 := hc 1
  have h2 := hc (-1)
  simp only [Ue_eval, Te_eval, hres] at h1 h2
  norm_num [Function.update_apply, cv3] at h1 h2
  linarith

/-- C1 (amended): for the concrete thermally-coupled shell instance with
zero thermal-strain coefficients and zero rates, on every row except the two
temperature rows (3 and 8, which carry the heat-conduction residual that has
no counterpart in `computeEnergies`), the entry accumulated by `addResidual`
is the exact partial derivative of the energy difference returned by
`computeEnergies` — potential minus kinetic, the fixed sign convention under
which the mechanical rows match — with respect to that row's state
variable. -/
theorem C1_amended_residual_is_energy_gradient (ei : ℕ) (t : ℚ) (X v : Vec) (i : ℕ)
    (hi : i < 10) (h3 : i ≠ 3) (h8 : i ≠ 8) :
    IsPartialDeriv
      (fun w => (computeEnergies (pol zeroV) ei t X w zeroV).2
        - (computeEnergies (pol zeroV) ei t X w zeroV).1)
      i v (addResidual (pol zeroV) ei t X v zeroV zeroV zeroV i) := by
  refine ⟨(1/2) * Ktab (10 * i + i), fun h => ?_⟩
  simp only [Ue_eval, Te_eval, resEntry ei t X v zeroV zeroV zeroV i hi,
    sumQ, range_ten, List.map_cons, List.map_nil, List.sum_cons, List.sum_nil,
    Function.update_apply, zeroV]
  interval_cases i <;>
    first
      | exact absurd rfl h3
      | exact absurd rfl h8
      | (norm_num [Ktab, Mtab] <;> ring)

/-- C1 witness: the amended gradient identity at row 0 of the zero state. -/
theorem C1_amended_witness :
    IsPartialDeriv
      (fun w => (computeEnergies (pol zeroV) 0 0 zeroV w zeroV).2
        - (computeEnergies (pol zeroV) 0 0 zeroV w zeroV).1)
      0 zeroV (addResidual (pol zeroV) 0 0 zeroV zeroV zeroV zeroV zeroV 0) :=
  C1_amended_residual_is_energy_gradient 0 0 zeroV zeroV 0 (by norm_num) (by norm_num)
    (by norm_num)

/-- C2 is false as stated once `evalThermalStrain` depends on the
interpolated temperature: at the concrete instance with thermal
coefficients, mechanical row 0 of the residual depends on the temperature
variable `v3` with slope 9/4 (through the thermal-strain subtraction), while
entry (0,3) of the matrix assembled by `addJacobian` with `alpha = 1`,
`beta = gamma = 0` is 0 — the thermo-mechanical coupling block is never
assembled. -/
theorem C2_counterexample :
    ¬ JacobianMatchesStateDerivative (pol thermalCoef) 0 0 zeroV zeroV zeroV := by
  intro hp
  obtain ⟨c, hc⟩ := hp zeroV 0 3 (by norm_num [size_pol]) (by norm_num [size_pol])
  have hmat : (addJacobian (pol thermalCoef) 0 0 1 0 0 zeroV zeroV zeroV zeroV zeroV
      zeroV).2 (size (pol thermalCoef) * 0 + 3) = 0 := by
    rw [jacMatEntry thermalCoef 0 0 1 0 0 zeroV zeroV zeroV zeroV zeroV zeroV
      (size (pol thermalCoef) * 0 + 3) (by norm_num [size_pol])]
    norm_num [size_pol, Ktab, Mtab, zeroV]
  have hres : ∀ x : ℚ,
      addResidual (pol thermalCoef) 0 0 zeroV (Function.update zeroV 3 x) zeroV zeroV
        zeroV 0 = (9/4) * x := by
    intro x
    rw [resEntryTh 0 0 zeroV (Function.update zeroV 3 x) zeroV zeroV zeroV 0 (by norm_num)]
    norm_num [sumQ, range_ten, Ktab, Mtab, ThTab, Function.update_apply, zeroV]
    ring
  have hres0 : addResidual (pol thermalCoef) 0 0 zeroV zeroV zeroV zeroV zeroV 0 = 0 := by
    rw [resEntryTh 0 0 zeroV zeroV zeroV zeroV zeroV 0 (by norm_num)]
    norm_num [sumQ, range_ten, Ktab, Mtab, ThTab, zeroV]
  have h1 := hc 1
  have h2 := hc (-1)
  simp only [hres, hres0, hmat] at h1 h2
  norm_num [zeroV] at h1 h2
  linarith

/-- C2 (amended): for the concrete instance whose thermal strain does not
depend on the state (zero thermal coefficients), every entry of the matrix
assembled by `addJacobian` with `alpha = 1`, `beta = gamma = 0` is the exact
partial derivative of the matching `addResidual` entry with respect to the
matching state variable. -/
theorem C2_amended_jacobian_is_residual_derivative (ei : ℕ) (t : ℚ) (X v dv ddv r0 : Vec)
    (i j : ℕ) (hi : i < 10) (hj : j < 10) :
    IsPartialDeriv (fun w => addResidual (pol zeroV) ei t X w dv ddv r0 i) j v
      ((addJacobian (pol zeroV) ei t 1 0 0 X v dv ddv r0 zeroV).2 (10 * i + j)) := by
  refine ⟨0, fun h => ?_⟩
  simp only [resEntry ei t X (Function.update v j (v j + h)) dv ddv r0 i hi,
    resEntry ei t X v dv ddv r0 i hi,
    jacMatEntry zeroV ei t 1 0 0 X v dv ddv r0 zeroV (10 * i + j) (by omega),
    sumQ, range_ten, List.map_cons, List.map_nil, List.sum_cons, List.sum_nil,
    Function.update_apply, zeroV]
  interval_cases j <;> norm_num <;> ring

/-- C2 witness: the amended derivative identity at entry (0, 0) of the zero
state. -/
theorem C2_amended_witness :
    IsPartialDeriv (fun w => addResidual (pol zeroV) 0 0 zeroV w zeroV zeroV zeroV 0) 0
      zeroV
      ((addJacobian (pol zeroV) 0 0 1 0 0 zeroV zeroV zeroV zeroV zeroV zeroV).2
        (10 * 0 + 0)) :=
  C2_amended_jacobian_is_residual_derivative 0 0 zeroV zeroV zeroV zeroV zeroV 0 0
    (by norm_num) (by norm_num)

/-- C3: for the concrete thermally-coupled shell instance (any thermal
coefficients, any scalar coefficients and any state), the matrix assembled
by `addJacobian` on top of a symmetric accumulator is symmetric:
entry (i, j) equals entry (j, i). -/
theorem C3_jacobian_symmetric (ethc : Vec) (ei : ℕ) (t a b g : ℚ)
    (X v dv ddv r0 m0 : Vec)
    (hm : ∀ i j : Fin 10, m0 (10 * (i : ℕ) + j) = m0 (10 * (j : ℕ) + i)) (i j : Fin 10) :
    (addJacobian (pol ethc) ei t a b g X v dv ddv r0 m0).2 (10 * (i : ℕ) + j)
      = (addJacobian (pol ethc) ei t a b g X v dv ddv r0 m0).2 (10 * (j : ℕ) + i) := by
  have hij : 10 * (i : ℕ) + j < 100 := by
    have := i.isLt
    have := j.isLt
    omega
  have hji : 10 * (j : ℕ) + i < 100 := by
    have := i.isLt
    have := j.isLt
    omega
  rw [jacMatEntry ethc ei t a b g X v dv ddv r0 m0 (10 * (i : ℕ) + j) hij,
    jacMatEntry ethc ei t a b g X v dv ddv r0 m0 (10 * (j : ℕ) + i) hji,
    hm i j, Ktab_symm i j, Mtab_symm i j]

/-- C3 witness: symmetry of the (3, 4) / (4, 3) pair over the zero
accumulator. -/
theorem C3_witness :
    (addJacobian (pol zeroV) 0 0 1 1 1 zeroV zeroV zeroV zeroV zeroV zeroV).2
        (10 * ((3 : Fin 10) : ℕ) + ((4 : Fin 10) : ℕ))
      = (addJacobian (pol zeroV) 0 0 1 1 1 zeroV zeroV zeroV zeroV zeroV zeroV).2
        (10 * ((4 : Fin 10) : ℕ) + ((3 : Fin 10) : ℕ)) :=
  C3_jacobian_symmetric zeroV 0 0 1 1 1 zeroV zeroV zeroV zeroV zeroV zeroV
    (fun i j => rfl) 3 4

/-- C4: the thermal block shared by `addResidual`, `addJacobian` and
`getOutputData` subtracts the constitutive thermal strain from the total
strain in every slot (`em i = e i - eth i`), the subtraction is a no-op when
the thermal strain is zero, and the stress written by `getOutputData` is the
constitutive stress at exactly this mechanical strain. -/
theorem C4_mechanical_strain_subtraction (P : ShellPolicies) (ei : ℕ)
    (Xpts vars fn etn d ety : Vec) (n : ℕ) (f : PointFrame) :
    (∀ i, (thermalPoint P ei vars f).em i = f.e i - (thermalPoint P ei vars f).eth i)
    ∧ ((∀ i, (thermalPoint P ei vars f).eth i = 0) →
        ∀ i, (thermalPoint P ei vars f).em i = f.e i)
    ∧ (outputPointData P ei Xpts vars fn etn d ety n).s
        = P.evalStress ei (outputPointData P ei Xpts vars fn etn d ety n).frame.pt
            (outputPointData P ei Xpts vars fn etn d ety n).frame.X
            (outputPointData P ei Xpts vars fn etn d ety n).th.em := by
  refine ⟨fun i => rfl, fun hz i => ?_, rfl⟩
  rw [show (thermalPoint P ei vars f).em i = f.e i - (thermalPoint P ei vars f).eth i
    from rfl, hz i, sub_zero]

/-- C5: for the concrete thermally-coupled shell instance, every entry of
the matrix assembled by `addJacobian` is the accumulator plus the affine
combination `alpha*K + beta*C + gamma*M` of the three unit-coefficient
assemblies, which do not depend on `(alpha, beta, gamma)`. -/
theorem C5_affine_combination (ethc : Vec) (ei : ℕ) (t a b g : ℚ)
    (X v dv ddv r0 m0 : Vec) (idx : Fin 100) :
    (addJacobian (pol ethc) ei t a b g X v dv ddv r0 m0).2 (idx : ℕ)
      = m0 (idx : ℕ)
        + a * (addJacobian (pol ethc) ei t 1 0 0 X v dv ddv r0 zeroV).2 (idx : ℕ)
        + b * (addJacobian (pol ethc) ei t 0 1 0 X v dv ddv r0 zeroV).2 (idx : ℕ)
        + g * (addJacobian (pol ethc) ei t 0 0 1 X v dv ddv r0 zeroV).2 (idx : ℕ) := by
  rw [jacMatEntry ethc ei t a b g X v dv ddv r0 m0 (idx : ℕ) idx.isLt,
    jacMatEntry ethc ei t 1 0 0 X v dv ddv r0 zeroV (idx : ℕ) idx.isLt,
    jacMatEntry ethc ei t 0 1 0 X v dv ddv r0 zeroV (idx : ℕ) idx.isLt,
    jacMatEntry ethc ei t 0 0 1 X v dv ddv r0 zeroV (idx : ℕ) idx.isLt]
  simp only [zeroV]
  ring

/-- C6: in the quadrature-point block shared by `computeEnergies`,
`addResidual`, `addJacobian` and `getOutputData`, slot 8 of the 9-component
strain is the nodal drilling strain interpolated to the point, overwriting
the strain model's value, and every other slot is the strain model's
value. -/
theorem C6_drill_strain_overwrite (P : ShellPolicies) (Xpts vars fn etn d ety pt : Vec) :
    (pointFrame P Xpts vars fn etn d ety pt).e 8 = P.interpFields 1 1 pt etn 0
    ∧ ∀ j, j ≠ 8 → (pointFrame P Xpts vars fn etn d ety pt).e j
        = P.evalStrain (pointFrame P Xpts vars fn etn d ety pt).dg.u0x
            (pointFrame P Xpts vars fn etn d ety pt).dg.u1x
            (pointFrame P Xpts vars fn etn d ety pt).e0ty j := by
  constructor
  · simp only [pointFrame]
    rw [Function.update_same]
  · intro j hj
    simp only [pointFrame]
    rw [Function.update_noteq hj]

/-- C7: the aggregated average temperature is the grand total of
`weight*detJ*temperature` over all contributing quadrature points of all
elements of all partitions, divided by the grand total of `weight*detJ` —
one division after a single sum reduction, never a mean of partial
averages. -/
theorem C7_average_temperature_quotient (parts : List (List ElemModel)) :
    getFunctionValue (evaluate parts)
      = (parts.map (fun els => (els.map elemIntegral).sum)).sum
        / (parts.map (fun els => (els.map elemVolume).sum)).sum := by
  rw [evaluate_eq]
  rfl

/-- C8: `getElementXptSens` of the average-temperature function writes zero
into every one of the `3*numNodes` coordinate-sensitivity slots and leaves
the rest of the buffer alone: the reported sensitivity with respect to node
coordinates is identically zero. -/
theorem C8_xpt_sens_zero (ei : ℕ) (e : ElemModel) (time scale : ℚ)
    (Xpts vars dvars ddvars dfdXpts : Vec) :
    (∀ i, i < 3 * e.numNodes →
      getElementXptSens ei e time scale Xpts vars dvars ddvars
        dfdXpts i = 0)
    ∧ ∀ i, 3 * e.numNodes ≤ i →
      getElementXptSens ei e time scale Xpts vars dvars ddvars
        dfdXpts i = dfdXpts i := by
  constructor
  · intro i hi
    simp [getElementXptSens, hi]
  · intro i hi
    simp [getElementXptSens, Nat.not_lt.mpr hi]

/-- C9: `getOutputData` leaves the buffer unchanged for any element type
other than the beam-or-shell type; it never reads `ld_data`; for the
beam-or-shell type it writes, per visualization node, exactly the
concatenation of the bitmask-selected segments in source order, whose length
is 3 + 6 + 9 + 9 + 4 for the five groups, and the displacement segment
zero-pads the components beyond `min(vars_per_node, 6)`. -/
theorem C9_output_data_layout (P : ShellPolicies) (ei : ℕ) (flags : OutputFlags)
    (Xpts vars dvars ddvars : Vec) (ld1 ld2 : ℤ) (data : Vec) :
    (∀ etype, etype ≠ ElementType.beamOrShell →
      getOutputData P ei etype flags Xpts vars dvars ddvars ld1 data = data)
    ∧ (∀ etype, getOutputData P ei etype flags Xpts vars dvars ddvars ld1 data
        = getOutputData P ei etype flags Xpts vars dvars ddvars ld2 data)
    ∧ getOutputData P ei ElementType.beamOrShell flags Xpts vars dvars ddvars ld1 data
        = writeVals data 0
            (concatMap (getOutputSegments P flags ei Xpts vars dvars)
              (List.range P.numVisNodes))
    ∧ (∀ n, (getOutputSegments P flags ei Xpts vars dvars n).length
        = (if flags.nodes then 3 else 0) + (if flags.displacements then 6 else 0)
          + (if flags.strains then 9 else 0) + (if flags.stresses then 9 else 0)
          + (if flags.extras then 4 else 0))
    ∧ ∀ n k, k < 6 →
        (dispSegment P vars n).getD k 0
          = if k < min (vars_per_node P) 6 then vars (k + vars_per_node P * n) else 0 := by
  refine ⟨?_, ?_, ?_, ?_, ?_⟩
  · intro etype hne
    simp only [getOutputData, hne, if_false]
    rw [foldl_const]
  · intro etype
    rfl
  · simp only [getOutputData, eq_self_iff_true, if_true]
    rw [foldl_writeSegs]
    rfl
  · intro n
    rcases flags with ⟨f1, f2, f3, f4, f5⟩
    cases f1 <;> cases f2 <;> cases f3 <;> cases f4 <;> cases f5 <;>
      simp [getOutputSegments, nodeSegments, dispSegment]
  · intro n k hk
    interval_cases k <;>
      simp [dispSegment, List.ofFn_succ, List.getD]

/-- C10: when no quadrature point contributes (every element lacks a basis
or reports a quantity count below 1), the `volume` accumulator is exactly
zero after the full evaluation, and both the function value and the
per-point sensitivity scaling divide by that zero with no guard. -/
theorem C10_unguarded_divisor (parts : List (List ElemModel))
    (h : ∀ els ∈ parts, ∀ e ∈ els,
      e.hasBasis = false ∨ ∀ i, e.quantityCount i < 1) :
    (evaluate parts).volume = 0
    ∧ getFunctionValue (evaluate parts)
        = (evaluate parts).integral_temp / 0
    ∧ ∀ e i, sensScale (evaluate parts) e i
        = e.detJ i * e.quadWeight i / 0 := by
  have hv : (evaluate parts).volume = 0 := by
    rw [evaluate_eq]
    apply List.sum_eq_zero
    intro x hx
    simp only [List.mem_map] at hx
    obtain ⟨els, hels, rfl⟩ := hx
    apply List.sum_eq_zero
    intro y hy
    simp only [List.mem_map] at hy
    obtain ⟨e, he, rfl⟩ := hy
    exact elemVolume_zero e (h els hels e he)
  refine ⟨hv, ?_, ?_⟩
  · show (evaluate parts).integral_temp
        / (evaluate parts).volume = _
    rw [hv]
  · intro e i
    show e.detJ i * e.quadWeight i / (evaluate parts).volume = _
    rw [hv]

/-- C10 witness: one partition with one element that has a basis but reports
count 0; the accumulated volume is zero and both divisions are by zero. -/
theorem C10_witness :
    (evaluate [[cElem]]).volume = 0
    ∧ getFunctionValue
        (evaluate [[cElem]])
        = (evaluate [[cElem]]).integral_temp / 0
    ∧ ∀ e i, sensScale
        (evaluate [[cElem]]) e i
        = e.detJ i * e.quadWeight i / 0 :=
  C10_unguarded_divisor [[cElem]] (by
    intro els hels e he
    simp only [List.mem_singleton] at hels
    subst hels
    simp only [List.mem_singleton] at he
    subst he
    right
    intro i
    norm_num [cElem])

end Claims
